import Mathlib

/-!
# Verification of the cooking-game simulation kernel

A shallow embedding of the kernel of the `awap-2026` repository
(`src/game_constants.py`, `src/robot_controller.py`, `src/game.py`),
together with theorems settling the specification claims.

The repository imports `game_state.py`, `tiles.py`, `item.py` and `map.py`,
which are not part of the available sources; definitions for those pieces are
modelled from the specification and are marked `Modelled from the spec:` in
their doc comments.  Everything else is a direct translation of the Python
source.

Conventions of the embedding:
* Python `int` is `Int` (money, coordinates) or `Nat` (turn counters, ids);
* Python dictionaries keyed by bot id are association lists `List (Nat × Nat)`;
* Python exceptions are an explicit `Except PyErr` result; a `try/except`
  block is an explicit `match` on that result;
* mutation of shared objects is explicit state passing on `GState`.
-/

set_option autoImplicit false

namespace AwapKernel

/-- Python exception classes that the gateway code can raise or catch. -/
inductive PyErr
  | keyError
  | indexError
  deriving DecidableEq, Repr

/-- `Team` enum from `game_constants.py`. -/
inductive Team
  | RED
  | BLUE
  deriving DecidableEq, Repr

/-- `Team.RED if self.__team == Team.BLUE else Team.BLUE`
(`robot_controller.py`, `get_enemy_team`). -/
def Team.enemy : Team → Team
  | .RED => .BLUE
  | .BLUE => .RED

/-- `FoodType` enum from `game_constants.py`. -/
inductive FoodType
  | EGG
  | ONIONS
  | MEAT
  | NOODLES
  | SAUCE
  deriving DecidableEq, Repr

/-- `FoodType.food_name` from `game_constants.py`. -/
def FoodType.food_name : FoodType → String
  | .EGG => "EGG"
  | .ONIONS => "ONIONS"
  | .MEAT => "MEAT"
  | .NOODLES => "NOODLES"
  | .SAUCE => "SAUCE"

/-- `FoodType.food_id` from `game_constants.py`. -/
def FoodType.food_id : FoodType → Nat
  | .EGG => 0
  | .ONIONS => 1
  | .MEAT => 2
  | .NOODLES => 3
  | .SAUCE => 4

/-- `FoodType.can_chop` from `game_constants.py`. -/
def FoodType.can_chop : FoodType → Bool
  | .ONIONS => true
  | .MEAT => true
  | _ => false

/-- `FoodType.can_cook` from `game_constants.py`. -/
def FoodType.can_cook : FoodType → Bool
  | .EGG => true
  | .MEAT => true
  | _ => false

/-- `FoodType.buy_cost` from `game_constants.py`. -/
def FoodType.buy_cost : FoodType → Int
  | .EGG => 20
  | .ONIONS => 30
  | .MEAT => 80
  | .NOODLES => 40
  | .SAUCE => 10

/-- `ShopCosts` enum from `game_constants.py` (PLATE, PAN). -/
inductive ShopCosts
  | PLATE
  | PAN
  deriving DecidableEq, Repr

/-- `ShopCosts.buy_cost` from `game_constants.py`. -/
def ShopCosts.buy_cost : ShopCosts → Int
  | .PLATE => 2
  | .PAN => 4

/-- `Buyable = Union[FoodType, ShopCosts]` from `robot_controller.py`. -/
inductive Buyable
  | food (ft : FoodType)
  | shopItem (sc : ShopCosts)
  deriving DecidableEq, Repr

/-- `__buyable_cost` from `robot_controller.py`: both enum kinds expose
`buy_cost`. -/
def Buyable.buy_cost : Buyable → Int
  | .food ft => ft.buy_cost
  | .shopItem sc => sc.buy_cost

/-- `GameConstants` from `game_constants.py`. -/
def GameConstants.TOTAL_TURNS : Nat := 500
def GameConstants.MONEY_PER_TURN : Int := 1
def GameConstants.COOK_PROGRESS : Nat := 20
def GameConstants.BURN_PROGRESS : Nat := 40
def GameConstants.PLATE_WASH_PROGRESS : Nat := 2
def GameConstants.MIDGAME_SWITCH_TURN : Nat := 250
def GameConstants.MIDGAME_SWITCH_DURATION : Nat := 100

/-- Modelled from the spec: the `Food` item of the missing `item.py` —
"*Food*: food type …, a chopped flag, and a cooked_stage ∈ {0=raw, 1=cooked,
2=burnt}" (§3).  `can_chop`/`can_cook`/`food_name` delegate to the food type,
as `robot_controller.py` accesses them on `Food` values. -/
structure FoodItem where
  ftype : FoodType
  chopped : Bool
  cooked_stage : Nat
  deriving DecidableEq, Repr

def FoodItem.food_name (f : FoodItem) : String := f.ftype.food_name
def FoodItem.can_chop (f : FoodItem) : Bool := f.ftype.can_chop
def FoodItem.can_cook (f : FoodItem) : Bool := f.ftype.can_cook

/-- Modelled from the spec: `Food(food_type)` constructor of the missing
`item.py`; `buy` "grants a fresh Food" (§4.3), i.e. unchopped and raw. -/
def freshFood (ft : FoodType) : FoodItem := ⟨ft, false, 0⟩

/-- Modelled from the spec: the `Item` union of the missing `item.py` (§3):
Food, Plate (ordered list of Food plus dirty flag), Pan (optional Food). -/
inductive Item
  | food (f : FoodItem)
  | plate (foods : List FoodItem) (dirty : Bool)
  | pan (f : Option FoodItem)
  deriving DecidableEq, Repr

instance : Inhabited Item := ⟨.pan none⟩

/-- Structural signatures computed by `__item_signature` in
`robot_controller.py`: tuples tagged `"Food"`, `"Plate"`, `"Pan"`.  In the
source the pan case recurses on the pan's content; since a `Pan` only ever
holds a `Food`, that recursive signature is the food triple. -/
inductive Sig
  | food (name : String) (chopped : Bool) (stage : Nat)
  | plate (dirty : Bool) (foods : List (String × Bool × Nat))
  | pan (s : Option (String × Bool × Nat))
  deriving DecidableEq, Repr

/-- `__item_signature` from `robot_controller.py` (lines 896-920). -/
def item_signature : Item → Sig
  | .food f => .food f.food_name f.chopped f.cooked_stage
  | .plate foods dirty =>
      .plate dirty (foods.map fun f => (f.food_name, f.chopped, f.cooked_stage))
  | .pan none => .pan none
  | .pan (some f) => .pan (some (f.food_name, f.chopped, f.cooked_stage))

/-- Modelled from the spec: the `Tile` union of the missing `tiles.py` (§3):
Floor, Wall, Counter, Box, Sink, SinkTable, Cooker, Trash, Submit, Shop, with
the mutable slots/counters that `robot_controller.py` reads and writes
(`item`, `count`, `num_dirty_plates`, `using`, `num_clean_plates`,
`cook_progress`, `shop_items`). -/
inductive Tile
  | floor
  | wall
  | counter (item : Option Item)
  | box (item : Option Item) (count : Nat)
  | sink (num_dirty_plates : Nat) (in_use : Bool)
  | sinkTable (num_clean_plates : Nat)
  | cooker (item : Option Item) (cook_progress : Nat)
  | trash
  | submit
  | shop (shop_items : List Buyable)
  deriving DecidableEq, Repr

/-- Modelled from the spec: `is_walkable` capability of `game_constants.py`
`TileType` flags — FLOOR and SUBMIT are walkable, nothing else. -/
def Tile.is_walkable : Tile → Bool
  | .floor => true
  | .submit => true
  | _ => false

/-- Modelled from the spec: which tile classes of the missing `tiles.py` have
an `item` attribute (`hasattr(tile, "item")` in `place`): the stateful
holders Counter, Box and Cooker. -/
def Tile.hasItemSlot : Tile → Bool
  | .counter _ => true
  | .box _ _ => true
  | .cooker _ _ => true
  | _ => false

/-- `getattr(tile, "item", None)` as used by `pickup`/`place`/`chop`. -/
def Tile.itemSlot : Tile → Option Item
  | .counter i => i
  | .box i _ => i
  | .cooker i _ => i
  | _ => none

/-- Writing `tile.item = v` on a slot-carrying tile. -/
def Tile.setItemSlot : Tile → Option Item → Tile
  | .counter _, v => .counter v
  | .box _ c, v => .box v c
  | .cooker _ p, v => .cooker v p
  | t, _ => t

/-- Modelled from the spec: `Box.enforce_invar` of the missing `tiles.py`,
per the §3 invariant that a Box is a counted stack — an empty stack stores no
prototype (`count = 0` iff `item = None`), mirroring the clean-up that
`pickup` performs inline. -/
def Tile.enforce_invar : Tile → Tile
  | .box i c => if c = 0 ∨ i = none then .box none 0 else .box i c
  | t => t

/-- Modelled from the spec: the `Map` of the missing `map.py` — a grid of
tiles with `width`, `height`, `in_bounds`; `tiles[x][y]` indexing as used by
`game.py`. -/
structure KMap where
  width : Nat
  height : Nat
  tiles : List (List Tile)
  deriving DecidableEq, Repr

/-- `Map.in_bounds` of the missing `map.py`, modelled from the spec:
coordinates must lie inside the `width × height` grid. -/
def KMap.in_bounds (m : KMap) (x y : Int) : Bool :=
  0 ≤ x && x < (m.width : Int) && 0 ≤ y && y < (m.height : Int)

/-- Reading `m.tiles[x][y]` (total with a default; all call sites in the
source are guarded by `in_bounds`). -/
def KMap.tileAt (m : KMap) (x y : Int) : Tile :=
  (m.tiles.getD x.toNat []).getD y.toNat .floor

/-- Writing `m.tiles[x][y] = t`. -/
def KMap.setTile (m : KMap) (x y : Int) (t : Tile) : KMap :=
  { m with tiles := m.tiles.set x.toNat ((m.tiles.getD x.toNat []).set y.toNat t) }

/-- Modelled from the spec: the `Bot` of the missing `game_state.py` (§3):
team affiliation, `map_team` (the map it is physically on), grid position,
optional held item. -/
structure Bot where
  bot_id : Nat
  team : Team
  map_team : Team
  x : Int
  y : Int
  holding : Option Item
  deriving DecidableEq, Repr

/-- Modelled from the spec: the `Order` of the missing `game_state.py` (§3),
with the fields read by `robot_controller.get_orders`. -/
structure KOrder where
  order_id : Nat
  required : List FoodType
  created_turn : Nat
  expires_turn : Nat
  reward : Int
  penalty : Int
  claimed_by : Option Nat
  completed_turn : Option Nat
  deriving DecidableEq, Repr

/-- Modelled from the spec: `Order.is_active` (§3): "Active iff
created ≤ current turn < expires and not yet completed". -/
def KOrder.is_active (o : KOrder) (turn : Nat) : Bool :=
  o.created_turn ≤ turn && turn < o.expires_turn && o.completed_turn = none

/-- Modelled from the spec: the `GameState` of the missing `game_state.py`
(§4.2): two maps, bot registry, per-team money ledger, per-team order lists,
turn counter and switch bookkeeping. -/
structure GState where
  turn : Nat
  bots : List Bot
  red_money : Int
  blue_money : Int
  orders_red : List KOrder
  orders_blue : List KOrder
  red_map : KMap
  blue_map : KMap
  switch_turn : Nat
  switch_duration : Nat
  switched_red : Bool
  switched_blue : Bool
  deriving DecidableEq, Repr

namespace GState

/-- `GameState.get_map(team)`. -/
def get_map (gs : GState) : Team → KMap
  | .RED => gs.red_map
  | .BLUE => gs.blue_map

/-- `GameState.get_team_money(team)`. -/
def get_team_money (gs : GState) : Team → Int
  | .RED => gs.red_money
  | .BLUE => gs.blue_money

/-- `GameState.add_team_money(team, delta)` (§4.2 ledger operation). -/
def add_team_money (gs : GState) (t : Team) (delta : Int) : GState :=
  match t with
  | .RED => { gs with red_money := gs.red_money + delta }
  | .BLUE => { gs with blue_money := gs.blue_money + delta }

/-- `GameState.orders[team]`. -/
def orders_of (gs : GState) : Team → List KOrder
  | .RED => gs.orders_red
  | .BLUE => gs.orders_blue

/-- Writing `GameState.orders[team] = l`. -/
def set_orders (gs : GState) (t : Team) (l : List KOrder) : GState :=
  match t with
  | .RED => { gs with orders_red := l }
  | .BLUE => { gs with orders_blue := l }

/-- `GameState.switched.get(team, False)`. -/
def switched_of (gs : GState) : Team → Bool
  | .RED => gs.switched_red
  | .BLUE => gs.switched_blue

/-- Modelled from the spec: `GameState.get_bot(bot_id)` of the missing
`game_state.py`; lookup in the bot registry, raising a `KeyError` for an
unknown id (`robot_controller.py` wraps every call in `try/except`). -/
def getBotE (gs : GState) (bot_id : Nat) : Except PyErr Bot :=
  match gs.bots.find? (fun b => b.bot_id = bot_id) with
  | some b => .ok b
  | none => .error .keyError

/-- `GameState.get_tile(team, x, y)`: raises when out of bounds (all in-kernel
call sites are either guarded by `in_bounds` or wrapped in `try/except`). -/
def get_tileE (gs : GState) (t : Team) (x y : Int) : Except PyErr Tile :=
  if (gs.get_map t).in_bounds x y then .ok ((gs.get_map t).tileAt x y)
  else .error .indexError

/-- Writing through the alias obtained from `get_tile` (Python mutates the
tile object in place; the model writes the updated tile back). -/
def set_tile (gs : GState) (t : Team) (x y : Int) (tile : Tile) : GState :=
  match t with
  | .RED => { gs with red_map := gs.red_map.setTile x y tile }
  | .BLUE => { gs with blue_map := gs.blue_map.setTile x y tile }

/-- Updating the bot object held in the registry (Python mutates the `Bot`
object in place through the alias returned by `get_bot`). -/
def updateBot (gs : GState) (bot_id : Nat) (f : Bot → Bot) : GState :=
  { gs with bots := gs.bots.map fun b => if b.bot_id = bot_id then f b else b }

/-- `GameState.is_walkable(team, x, y)`, modelled from the spec tile
capability flags. -/
def is_walkable (gs : GState) (t : Team) (x y : Int) : Bool :=
  ((gs.get_map t).tileAt x y).is_walkable

/-- The per-map occupancy index (`GameState.occupancy[team][x][y]`), which
the spec says mirrors bot positions: occupied iff some bot of that map
stands there. -/
def occupied (gs : GState) (t : Team) (x y : Int) : Bool :=
  gs.bots.any fun b => b.map_team = t && b.x = x && b.y = y

/-- Modelled from the spec: `GameState.move_bot(bot_id, dx, dy)` (§4.2):
"applies a pre-validated single-step move; fails (returns false) if the
destination is blocked by another bot". -/
def move_bot (gs : GState) (bot_id : Nat) (dx dy : Int) : Bool × GState :=
  match gs.bots.find? (fun b => b.bot_id = bot_id) with
  | none => (false, gs)
  | some b =>
      if gs.bots.any fun b2 =>
          b2.bot_id ≠ bot_id && b2.map_team = b.map_team &&
            b2.x = b.x + dx && b2.y = b.y + dy
      then (false, gs)
      else (true, gs.updateBot bot_id fun b0 => { b0 with x := b.x + dx, y := b.y + dy })

end GState

/-- Plate contents and order requirements compared as multisets of food
names: the executable check is list permutation (`submit_plate` matching,
"order of foods on the plate is irrelevant", §4.2). -/
def namesMatch (plateNames requiredNames : List String) : Bool :=
  plateNames.isPerm requiredNames

/-- Modelled from the spec: the order-matching loop of
`GameState.submit_plate` (§4.2): find an active order "whose required
multiset is exactly satisfied by the plate's food names"; mark it completed.
Returns the matched order's reward and the updated order list. -/
def matchAndComplete (orders : List KOrder) (turn : Nat)
    (plateNames : List String) : Option (Int × List KOrder) :=
  match orders with
  | [] => none
  | o :: rest =>
      if o.is_active turn && namesMatch plateNames (o.required.map FoodType.food_name)
      then some (o.reward, { o with completed_turn := some turn } :: rest)
      else (matchAndComplete rest turn plateNames).map
        fun (rl : Int × List KOrder) => (rl.1, o :: rl.2)

/-- Modelled from the spec: `GameState.submit_plate(bot_id, x, y)` (§4.2):
given a clean Plate in the bot's hand, find an active order whose required
multiset equals the plate's food-name multiset; on match apply the reward to
the submitting team, mark the order completed, empty the plate and mark it
dirty, return true; otherwise return false without side effects.
(Per §4.4 and §8 the `claimed_by` bookkeeping is not enforced by the
kernel, so no claim condition is checked here.) -/
def GState.submit_plate (gs : GState) (bot_id : Nat) (_x _y : Int) : Bool × GState :=
  match gs.bots.find? (fun b => b.bot_id = bot_id) with
  | none => (false, gs)
  | some b =>
      match b.holding with
      | some (.plate foods false) =>
          match matchAndComplete (gs.orders_of b.team) gs.turn
              (foods.map FoodItem.food_name) with
          | none => (false, gs)
          | some (reward, orders') =>
              (true,
                ((gs.set_orders b.team orders').add_team_money b.team reward).updateBot
                  bot_id fun b0 => { b0 with holding := some (.plate [] true) })
      | _ => (false, gs)

/-- Modelled from the spec: `GameState.request_switch(team)` (§4.2):
"one-shot: valid only inside [switch_turn, switch_turn+switch_duration-1]
and only if not already switched; teleports every bot of `team` onto the
opponent's map … flips that team's map_team for all its bots, and marks
switched=true."  (The non-colliding respawn positions are abstracted as
keeping coordinates; the claims do not depend on them.) -/
def GState.request_switch (gs : GState) (t : Team) : Bool × GState :=
  if !(gs.switch_turn ≤ gs.turn && gs.turn ≤ gs.switch_turn + gs.switch_duration - 1)
      || gs.switched_of t then (false, gs)
  else
    match t with
    | .RED =>
        (true, { gs with
          bots := gs.bots.map fun (b : Bot) =>
            if b.team = t then { b with map_team := t.enemy } else b,
          switched_red := true })
    | .BLUE =>
        (true, { gs with
          bots := gs.bots.map fun (b : Bot) =>
            if b.team = t then { b with map_team := t.enemy } else b,
          switched_blue := true })

/-! ## The action gateway (`RobotController`, `robot_controller.py`) -/

/-- `dict.get(k, 0)` on a Python dict keyed by bot id (association-list
model; keys are unique, lookup reads the first entry). -/
def dget : List (Nat × Nat) → Nat → Nat
  | [], _ => 0
  | kv :: rest, k => if kv.1 = k then kv.2 else dget rest k

/-- `dict[k] = v` on a Python dict keyed by bot id. -/
def dset : List (Nat × Nat) → Nat → Nat → List (Nat × Nat)
  | [], k, v => [(k, v)]
  | kv :: rest, k, v => if kv.1 = k then (k, v) :: rest else kv :: dset rest k v

/-- The mutable state of a `RobotController` instance (`__team`,
`__last_seen_turn`, `__moves_left`, `__actions_left`). -/
structure RC where
  team : Team
  last_seen_turn : Nat
  moves_left : List (Nat × Nat)
  actions_left : List (Nat × Nat)
  deriving DecidableEq, Repr

/-- `get_team_bot_ids` from `robot_controller.py`. -/
def get_team_bot_ids (gs : GState) (t : Team) : List Nat :=
  (gs.bots.filter fun b => b.team = t).map Bot.bot_id

/-- `__refresh_turn_budgets`: set both budgets to 1 for every bot of the
controller's team. -/
def refresh_turn_budgets (rc : RC) (gs : GState) : RC :=
  let ids := get_team_bot_ids gs rc.team
  { rc with
    moves_left := ids.foldl (fun d i => dset d i 1) rc.moves_left,
    actions_left := ids.foldl (fun d i => dset d i 1) rc.actions_left }

/-- `__ensure_turn`: lazily refresh budgets when the store's turn counter has
advanced past the controller's last seen value. -/
def ensure_turn (rc : RC) (gs : GState) : RC :=
  if gs.turn ≠ rc.last_seen_turn
  then refresh_turn_budgets { rc with last_seen_turn := gs.turn } gs
  else rc

/-- `__consume_move` from `robot_controller.py` (lines 58-67): refresh on
turn change, then fail when the entry is exhausted, else decrement it. -/
def consume_move (rc : RC) (gs : GState) (bot_id : Nat) : Bool × RC :=
  if dget (ensure_turn rc gs).moves_left bot_id = 0 then (false, ensure_turn rc gs)
  else
    (true, { ensure_turn rc gs with
      moves_left := dset (ensure_turn rc gs).moves_left bot_id
        (dget (ensure_turn rc gs).moves_left bot_id - 1) })

/-- `__consume_action` from `robot_controller.py` (lines 69-78). -/
def consume_action (rc : RC) (gs : GState) (bot_id : Nat) : Bool × RC :=
  if dget (ensure_turn rc gs).actions_left bot_id = 0 then (false, ensure_turn rc gs)
  else
    (true, { ensure_turn rc gs with
      actions_left := dset (ensure_turn rc gs).actions_left bot_id
        (dget (ensure_turn rc gs).actions_left bot_id - 1) })

/-- `__safe_get_bot` (lines 883-893): catch the lookup exception, then fail
closed for a wrong-team bot. -/
def safe_get_bot (team : Team) (gs : GState) (bot_id : Nat) : Option Bot :=
  match gs.getBotE bot_id with
  | .error _ => none
  | .ok b => if b.team ≠ team then none else some b

/-- `__chebyshev_dist` (lines 158-161). -/
def chebyshev_dist (x0 y0 x1 y1 : Int) : Int :=
  max (x0 - x1).natAbs (y0 - y1).natAbs

/-- `__resolve_target_tile` (lines 163-183): default the target to the bot's
own cell, require Chebyshev distance ≤ 1 and in-bounds, then read the tile
(the only possibly-raising call, guarded by `in_bounds`). -/
def resolve_target_tile (team : Team) (gs : GState) (bot_id : Nat)
    (target_x target_y : Option Int) : Except PyErr (Option (Int × Int × Tile)) :=
  match safe_get_bot team gs bot_id with
  | none => .ok none
  | some b =>
      let tx := target_x.getD b.x
      let ty := target_y.getD b.y
      if chebyshev_dist b.x b.y tx ty > 1 then .ok none
      else if !(gs.get_map b.map_team).in_bounds tx ty then .ok none
      else
        match gs.get_tileE b.map_team tx ty with
        | .error e => .error e
        | .ok tile => .ok (some (tx, ty, tile))

/-- `__can_move_internal` (lines 927-942). -/
def can_move_internal (gs : GState) (map_team : Team) (x y dx dy : Int) : Bool :=
  let nx := x + dx
  let ny := y + dy
  if !(gs.get_map map_team).in_bounds nx ny then false
  else if !gs.is_walkable map_team nx ny then false
  else if gs.occupied map_team nx ny then false
  else true

/-- `can_move` (lines 189-199). -/
def rcCanMove (rc : RC) (gs : GState) (bot_id : Nat) (dx dy : Int) : Bool :=
  match safe_get_bot rc.team gs bot_id with
  | none => false
  | some b =>
      if max dx.natAbs dy.natAbs > 1 || (dx = 0 && dy = 0) then false
      else can_move_internal gs b.map_team b.x b.y dx dy

/-- `move` (lines 202-224).  Note the source returns `True` even when
`game_state.move_bot` reports the destination blocked (it only logs). -/
def rcMove (rc : RC) (gs : GState) (bot_id : Nat) (dx dy : Int) :
    Except PyErr (Bool × RC × GState) :=
  match safe_get_bot rc.team gs bot_id with
  | none => .ok (false, rc, gs)
  | some b =>
      match consume_move rc gs bot_id with
      | (false, rc1) => .ok (false, rc1, gs)
      | (true, rc1) =>
          if max dx.natAbs dy.natAbs > 1 || (dx = 0 && dy = 0) then .ok (false, rc1, gs)
          else if !can_move_internal gs b.map_team b.x b.y dx dy then .ok (false, rc1, gs)
          else
            let r := gs.move_bot bot_id dx dy
            .ok (true, rc1, r.2)

/-- `__set_cook_progress_for_food` (lines 945-955): start the cooker at the
beginning of the food's current stage. -/
def set_cook_progress_for_food (f : FoodItem) : Nat :=
  if f.cooked_stage = 0 then 0
  else if f.cooked_stage = 1 then GameConstants.COOK_PROGRESS
  else GameConstants.BURN_PROGRESS

/-- The part of `pickup` (lines 231-275) after the budget has been consumed. -/
def pickupCore (gs : GState) (team : Team) (bot_id : Nat) (b : Bot)
    (target_x target_y : Option Int) : Except PyErr (Bool × GState) :=
  if b.holding ≠ none then .ok (false, gs)
  else
    match resolve_target_tile team gs bot_id target_x target_y with
    | .error e => .error e
    | .ok none => .ok (false, gs)
    | .ok (some (tx, ty, tile)) =>
        match tile with
        | .box item count =>
            if count = 0 ∨ item = none then
              -- the source repairs the invariant in place and fails
              .ok (false, gs.set_tile b.map_team tx ty (.box none 0))
            else
              let proto := item.getD default
              let gs1 := gs.updateBot bot_id fun b0 => { b0 with holding := some proto }
              let newCount := count - 1
              let newTile : Tile :=
                if newCount = 0 then .box none 0 else .box item newCount
              .ok (true, gs1.set_tile b.map_team tx ty newTile)
        | _ =>
            match tile.itemSlot with
            | none => .ok (false, gs)
            | some item =>
                let gs1 := gs.updateBot bot_id fun b0 => { b0 with holding := some item }
                .ok (true, gs1.set_tile b.map_team tx ty (tile.setItemSlot none))

/-- The cook progress set when a pan is placed on a cooker (`place`, lines
314-318): start at the beginning of the current stage when the placed pan
carries cookable food, else 0. -/
def pan_place_progress (heldFood : Option FoodItem) : Nat :=
  match heldFood with
  | some f => if f.can_cook then set_cook_progress_for_food f else 0
  | none => 0

/-- The part of `place` (lines 277-388) after the budget has been consumed. -/
def placeCore (gs : GState) (team : Team) (bot_id : Nat) (b : Bot)
    (target_x target_y : Option Int) : Except PyErr (Bool × GState) :=
  match b.holding with
  | none => .ok (false, gs)
  | some held =>
    match resolve_target_tile team gs bot_id target_x target_y with
    | .error e => .error e
    | .ok none => .ok (false, gs)
    | .ok (some (tx, ty, tile)) =>
        match tile with
        | .cooker citem _cprog =>
            match held with
            | .pan heldFood =>
                -- pan swap; `old_pan` is the resident item when it is a Pan,
                -- else None; a busy resident pan refuses the swap
                match citem with
                | some (.pan (some _)) => .ok (false, gs)
                | some (.pan none) =>
                    let gs1 := gs.set_tile b.map_team tx ty
                      (.cooker (some (.pan heldFood)) (pan_place_progress heldFood))
                    .ok (true, gs1.updateBot bot_id fun b0 =>
                      { b0 with holding := some (.pan none) })
                | _ =>
                    let gs1 := gs.set_tile b.map_team tx ty
                      (.cooker (some (.pan heldFood)) (pan_place_progress heldFood))
                    .ok (true, gs1.updateBot bot_id fun b0 => { b0 with holding := none })
            | .food f =>
                match citem with
                | some (.pan panFood) =>
                    if panFood ≠ none then .ok (false, gs)
                    else if !f.can_cook then .ok (false, gs)
                    else
                      let gs1 := gs.set_tile b.map_team tx ty
                        (.cooker (some (.pan (some f))) (set_cook_progress_for_food f))
                      .ok (true, gs1.updateBot bot_id fun b0 => { b0 with holding := none })
                | _ => .ok (false, gs)
            | _ => .ok (false, gs)
        | .box bitem bcount =>
            match (Tile.box bitem bcount).enforce_invar with
            | .box item2 count2 =>
                if count2 = 0 ∨ item2 = none then
                  let gs1 := gs.set_tile b.map_team tx ty (.box (some held) 1)
                  .ok (true, gs1.updateBot bot_id fun b0 => { b0 with holding := none })
                else if item_signature (item2.getD default) ≠ item_signature held then
                  .ok (false, gs.set_tile b.map_team tx ty (.box item2 count2))
                else
                  let gs1 := gs.set_tile b.map_team tx ty (.box item2 (count2 + 1))
                  .ok (true, gs1.updateBot bot_id fun b0 => { b0 with holding := none })
            | _ => .ok (false, gs)
        | _ =>
            if !tile.hasItemSlot then .ok (false, gs)
            else if tile.itemSlot ≠ none then .ok (false, gs)
            else
              let gs1 := gs.set_tile b.map_team tx ty (tile.setItemSlot (some held))
              .ok (true, gs1.updateBot bot_id fun b0 => { b0 with holding := none })

/-- The part of `trash` (lines 390-416) after the budget has been consumed:
Plates come back clean and empty, Pans come back empty, other items vanish. -/
def trashCore (gs : GState) (team : Team) (bot_id : Nat) (b : Bot)
    (target_x target_y : Option Int) : Except PyErr (Bool × GState) :=
  match b.holding with
  | none => .ok (false, gs)
  | some held =>
    match resolve_target_tile team gs bot_id target_x target_y with
    | .error e => .error e
    | .ok none => .ok (false, gs)
    | .ok (some (_, _, tile)) =>
        match tile with
        | .trash =>
            let newHolding : Option Item :=
              match held with
              | .plate _ _ => some (.plate [] false)
              | .pan _ => some (.pan none)
              | _ => none
            .ok (true, gs.updateBot bot_id fun b0 => { b0 with holding := newHolding })
        | _ => .ok (false, gs)

/-- `__shop_has_item` (lines 422-425). -/
def shop_has_item (menu : List Buyable) (item : Buyable) : Bool :=
  menu.contains item

/-- `__grant_buyable_to_bot` (lines 433-458): put the purchased item into the
bot's hand; a fresh raw Food, an empty clean Plate, or an empty Pan. -/
def grant_buyable_to_bot (gs : GState) (team : Team) (bot_id : Nat)
    (item : Buyable) : Bool × GState :=
  match safe_get_bot team gs bot_id with
  | none => (false, gs)
  | some b =>
      if b.holding ≠ none then (false, gs)
      else
        match item with
        | .food ft =>
            (true, gs.updateBot bot_id fun b0 => { b0 with holding := some (.food (freshFood ft)) })
        | .shopItem .PLATE =>
            (true, gs.updateBot bot_id fun b0 => { b0 with holding := some (.plate [] false) })
        | .shopItem .PAN =>
            (true, gs.updateBot bot_id fun b0 => { b0 with holding := some (.pan none) })

/-- The part of `buy` (lines 487-529) after the budget has been consumed:
debit the team, then grant; refund if the grant fails. -/
def buyCore (gs : GState) (team : Team) (bot_id : Nat) (b : Bot) (item : Buyable)
    (target_x target_y : Option Int) : Except PyErr (Bool × GState) :=
  match resolve_target_tile team gs bot_id target_x target_y with
  | .error e => .error e
  | .ok none => .ok (false, gs)
  | .ok (some (_, _, tile)) =>
      match tile with
      | .shop menu =>
          if b.holding ≠ none then .ok (false, gs)
          else if !shop_has_item menu item then .ok (false, gs)
          else if gs.get_team_money team < item.buy_cost then .ok (false, gs)
          else if (grant_buyable_to_bot (gs.add_team_money team (-item.buy_cost))
              team bot_id item).1 then
            .ok (true, (grant_buyable_to_bot (gs.add_team_money team (-item.buy_cost))
              team bot_id item).2)
          else
            -- grant failed: refund the debit
            .ok (false, (grant_buyable_to_bot (gs.add_team_money team (-item.buy_cost))
              team bot_id item).2.add_team_money team item.buy_cost)
      | _ => .ok (false, gs)

/-- The part of `chop` (lines 536-567) after the budget has been consumed. -/
def chopCore (gs : GState) (team : Team) (bot_id : Nat) (b : Bot)
    (target_x target_y : Option Int) : Except PyErr (Bool × GState) :=
  match resolve_target_tile team gs bot_id target_x target_y with
  | .error e => .error e
  | .ok none => .ok (false, gs)
  | .ok (some (tx, ty, tile)) =>
      match tile with
      | .counter citem =>
          if b.holding ≠ none then .ok (false, gs)
          else
            match citem with
            | some (.food f) =>
                if !f.can_chop then .ok (false, gs)
                else .ok (true, gs.set_tile b.map_team tx ty
                  (.counter (some (.food { f with chopped := true }))))
            | _ => .ok (false, gs)
      | _ => .ok (false, gs)

/-- The part of `start_cook` (lines 593-634) after the budget has been
consumed. -/
def start_cookCore (gs : GState) (team : Team) (bot_id : Nat) (b : Bot)
    (target_x target_y : Option Int) : Except PyErr (Bool × GState) :=
  match resolve_target_tile team gs bot_id target_x target_y with
  | .error e => .error e
  | .ok none => .ok (false, gs)
  | .ok (some (tx, ty, tile)) =>
      match tile with
      | .cooker citem _ =>
          match citem with
          | some (.pan panFood) =>
              if panFood ≠ none then .ok (false, gs)
              else
                match b.holding with
                | some (.food f) =>
                    if !f.can_cook then .ok (false, gs)
                    else
                      let gs1 := gs.set_tile b.map_team tx ty
                        (.cooker (some (.pan (some f))) (set_cook_progress_for_food f))
                      .ok (true, gs1.updateBot bot_id fun b0 => { b0 with holding := none })
                | _ => .ok (false, gs)
          | _ => .ok (false, gs)
      | _ => .ok (false, gs)

/-- The part of `take_from_pan` (lines 636-666) after the budget has been
consumed: move the food to the hand, reset `cook_progress` to 0. -/
def take_from_panCore (gs : GState) (team : Team) (bot_id : Nat) (b : Bot)
    (target_x target_y : Option Int) : Except PyErr (Bool × GState) :=
  if b.holding ≠ none then .ok (false, gs)
  else
    match resolve_target_tile team gs bot_id target_x target_y with
    | .error e => .error e
    | .ok none => .ok (false, gs)
    | .ok (some (tx, ty, tile)) =>
        match tile with
        | .cooker citem _ =>
            match citem with
            | some (.pan (some f)) =>
                let gs1 := gs.set_tile b.map_team tx ty (.cooker (some (.pan none)) 0)
                .ok (true, gs1.updateBot bot_id fun b0 => { b0 with holding := some (.food f) })
            | _ => .ok (false, gs)
        | _ => .ok (false, gs)

/-- The part of `take_clean_plate` (lines 672-698) after the budget has been
consumed. -/
def take_clean_plateCore (gs : GState) (team : Team) (bot_id : Nat) (b : Bot)
    (target_x target_y : Option Int) : Except PyErr (Bool × GState) :=
  if b.holding ≠ none then .ok (false, gs)
  else
    match resolve_target_tile team gs bot_id target_x target_y with
    | .error e => .error e
    | .ok none => .ok (false, gs)
    | .ok (some (tx, ty, tile)) =>
        match tile with
        | .sinkTable numClean =>
            if numClean = 0 then .ok (false, gs)
            else
              let gs1 := gs.set_tile b.map_team tx ty (.sinkTable (numClean - 1))
              .ok (true, gs1.updateBot bot_id fun b0 => { b0 with holding := some (.plate [] false) })
        | _ => .ok (false, gs)

/-- The part of `put_dirty_plate_in_sink` (lines 700-724) after the budget
has been consumed. -/
def put_dirty_plate_in_sinkCore (gs : GState) (team : Team) (bot_id : Nat) (b : Bot)
    (target_x target_y : Option Int) : Except PyErr (Bool × GState) :=
  match b.holding with
  | some (.plate _ true) =>
      match resolve_target_tile team gs bot_id target_x target_y with
      | .error e => .error e
      | .ok none => .ok (false, gs)
      | .ok (some (tx, ty, tile)) =>
          match tile with
          | .sink numDirty inUse =>
              let gs1 := gs.set_tile b.map_team tx ty (.sink (numDirty + 1) inUse)
              .ok (true, gs1.updateBot bot_id fun b0 => { b0 with holding := none })
          | _ => .ok (false, gs)
  | _ => .ok (false, gs)

/-- The part of `wash_sink` (lines 726-747) after the budget has been
consumed: mark the sink in use; washing happens on a later tick. -/
def wash_sinkCore (gs : GState) (team : Team) (bot_id : Nat) (b : Bot)
    (target_x target_y : Option Int) : Except PyErr (Bool × GState) :=
  match resolve_target_tile team gs bot_id target_x target_y with
  | .error e => .error e
  | .ok none => .ok (false, gs)
  | .ok (some (tx, ty, tile)) =>
      match tile with
      | .sink numDirty _ =>
          if numDirty = 0 then .ok (false, gs)
          else .ok (true, gs.set_tile b.map_team tx ty (.sink numDirty true))
      | _ => .ok (false, gs)

/-- The part of `add_food_to_plate` (lines 749-788) after the budget has been
consumed. -/
def add_food_to_plateCore (gs : GState) (team : Team) (bot_id : Nat) (b : Bot)
    (target_x target_y : Option Int) : Except PyErr (Bool × GState) :=
  match resolve_target_tile team gs bot_id target_x target_y with
  | .error e => .error e
  | .ok none => .ok (false, gs)
  | .ok (some (tx, ty, tile)) =>
      match b.holding with
      | some (.plate pfoods pdirty) =>
          if pdirty then .ok (false, gs)
          else
            match tile.itemSlot with
            | some (.food f) =>
                let gs1 := gs.updateBot bot_id fun b0 =>
                  { b0 with holding := some (.plate (pfoods ++ [f]) pdirty) }
                .ok (true, gs1.set_tile b.map_team tx ty (tile.setItemSlot none))
            | _ => .ok (false, gs)
      | some (.food f) =>
          match tile.itemSlot with
          | some (.plate tfoods tdirty) =>
              if tdirty then .ok (false, gs)
              else
                let gs1 := gs.set_tile b.map_team tx ty
                  (tile.setItemSlot (some (.plate (tfoods ++ [f]) tdirty)))
                .ok (true, gs1.updateBot bot_id fun b0 => { b0 with holding := none })
          | _ => .ok (false, gs)
      | _ => .ok (false, gs)

/-- The part of `submit` (lines 807-832) after the budget has been consumed
and the bot resolved: require a Submit tile and a clean Plate, then delegate
to `GameState.submit_plate`. -/
def submitCore (gs : GState) (team : Team) (bot_id : Nat) (b : Bot)
    (target_x target_y : Option Int) : Except PyErr (Bool × GState) :=
  match resolve_target_tile team gs bot_id target_x target_y with
  | .error e => .error e
  | .ok none => .ok (false, gs)
  | .ok (some (tx, ty, tile)) =>
      match tile with
      | .submit =>
          match b.holding with
          | some (.plate _ false) =>
              .ok ((gs.submit_plate bot_id tx ty).1, (gs.submit_plate bot_id tx ty).2)
          | _ => .ok (false, gs)
      | _ => .ok (false, gs)

/-- The mutating gateway actions (everything that calls `__consume_action`). -/
inductive ActCall
  | pickup (tx ty : Option Int)
  | place (tx ty : Option Int)
  | trash (tx ty : Option Int)
  | buy (item : Buyable) (tx ty : Option Int)
  | chop (tx ty : Option Int)
  | start_cook (tx ty : Option Int)
  | take_from_pan (tx ty : Option Int)
  | take_clean_plate (tx ty : Option Int)
  | put_dirty_plate_in_sink (tx ty : Option Int)
  | wash_sink (tx ty : Option Int)
  | add_food_to_plate (tx ty : Option Int)
  | submit (tx ty : Option Int)
  deriving DecidableEq, Repr

/-- Selects the post-budget part of each action. -/
def actCore (c : ActCall) (gs : GState) (team : Team) (bot_id : Nat) (b : Bot) :
    Except PyErr (Bool × GState) :=
  match c with
  | .pickup tx ty => pickupCore gs team bot_id b tx ty
  | .place tx ty => placeCore gs team bot_id b tx ty
  | .trash tx ty => trashCore gs team bot_id b tx ty
  | .buy item tx ty => buyCore gs team bot_id b item tx ty
  | .chop tx ty => chopCore gs team bot_id b tx ty
  | .start_cook tx ty => start_cookCore gs team bot_id b tx ty
  | .take_from_pan tx ty => take_from_panCore gs team bot_id b tx ty
  | .take_clean_plate tx ty => take_clean_plateCore gs team bot_id b tx ty
  | .put_dirty_plate_in_sink tx ty => put_dirty_plate_in_sinkCore gs team bot_id b tx ty
  | .wash_sink tx ty => wash_sinkCore gs team bot_id b tx ty
  | .add_food_to_plate tx ty => add_food_to_plateCore gs team bot_id b tx ty
  | .submit tx ty => submitCore gs team bot_id b tx ty

/-- Whether the action is `submit`, whose wrapper consumes the budget before
resolving the bot (lines 807-814); every other action resolves the bot
first. -/
def ActCall.isSubmitCall : ActCall → Bool
  | .submit _ _ => true
  | _ => false

/-- Running one gateway action: resolve the bot, consume the action budget,
then run the action-specific part — with `submit`'s swapped first two
steps. -/
def runAct (rc : RC) (gs : GState) (bot_id : Nat) (c : ActCall) :
    Except PyErr (Bool × RC × GState) :=
  if c.isSubmitCall then
    match consume_action rc gs bot_id with
    | (false, rc1) => .ok (false, rc1, gs)
    | (true, rc1) =>
        match safe_get_bot rc.team gs bot_id with
        | none => .ok (false, rc1, gs)
        | some b =>
            (actCore c gs rc.team bot_id b).map
              fun (rg : Bool × GState) => (rg.1, rc1, rg.2)
  else
    match safe_get_bot rc.team gs bot_id with
    | none => .ok (false, rc, gs)
    | some b =>
        match consume_action rc gs bot_id with
        | (false, rc1) => .ok (false, rc1, gs)
        | (true, rc1) =>
            (actCore c gs rc.team bot_id b).map
              fun (rg : Bool × GState) => (rg.1, rc1, rg.2)

/-- `pickup` as a gateway entry point. -/
def rcPickup (rc : RC) (gs : GState) (bot_id : Nat) (tx ty : Option Int) :
    Except PyErr (Bool × RC × GState) := runAct rc gs bot_id (.pickup tx ty)

/-- `place` as a gateway entry point. -/
def rcPlace (rc : RC) (gs : GState) (bot_id : Nat) (tx ty : Option Int) :
    Except PyErr (Bool × RC × GState) := runAct rc gs bot_id (.place tx ty)

/-- `buy` as a gateway entry point. -/
def rcBuy (rc : RC) (gs : GState) (bot_id : Nat) (item : Buyable) (tx ty : Option Int) :
    Except PyErr (Bool × RC × GState) := runAct rc gs bot_id (.buy item tx ty)

/-- `submit` as a gateway entry point. -/
def rcSubmit (rc : RC) (gs : GState) (bot_id : Nat) (tx ty : Option Int) :
    Except PyErr (Bool × RC × GState) := runAct rc gs bot_id (.submit tx ty)

/-- `can_buy` (lines 461-483). -/
def rcCanBuy (rc : RC) (gs : GState) (bot_id : Nat) (item : Buyable)
    (tx ty : Option Int) : Except PyErr Bool :=
  match safe_get_bot rc.team gs bot_id with
  | none => .ok false
  | some b =>
      match resolve_target_tile rc.team gs bot_id tx ty with
      | .error e => .error e
      | .ok none => .ok false
      | .ok (some (_, _, tile)) =>
          match tile with
          | .shop menu =>
              if b.holding ≠ none then .ok false
              else if !shop_has_item menu item then .ok false
              else .ok (decide (item.buy_cost ≤ gs.get_team_money rc.team))
          | _ => .ok false

/-- `can_start_cook` (lines 569-591). -/
def rcCanStartCook (rc : RC) (gs : GState) (bot_id : Nat) (tx ty : Option Int) :
    Except PyErr Bool :=
  match safe_get_bot rc.team gs bot_id with
  | none => .ok false
  | some b =>
      match resolve_target_tile rc.team gs bot_id tx ty with
      | .error e => .error e
      | .ok none => .ok false
      | .ok (some (_, _, tile)) =>
          match tile with
          | .cooker (some (.pan none)) _ =>
              match b.holding with
              | some (.food f) => .ok f.can_cook
              | _ => .ok false
          | _ => .ok false

/-- `can_submit` (lines 794-805). -/
def rcCanSubmit (rc : RC) (gs : GState) (bot_id : Nat) (tx ty : Option Int) :
    Except PyErr Bool :=
  match safe_get_bot rc.team gs bot_id with
  | none => .ok false
  | some b =>
      match b.holding with
      | some (.plate _ false) =>
          match resolve_target_tile rc.team gs bot_id tx ty with
          | .error e => .error e
          | .ok none => .ok false
          | .ok (some (_, _, tile)) =>
              match tile with
              | .submit => .ok true
              | _ => .ok false
      | _ => .ok false

/-- The record returned by `get_switch_info` (lines 838-851). -/
structure SwitchInfo where
  turn : Nat
  switch_turn : Nat
  switch_duration : Nat
  window_active : Bool
  window_end_turn : Nat
  my_team_switched : Bool
  enemy_team_switched : Bool
  deriving DecidableEq, Repr

/-- `get_switch_info` (lines 838-851). -/
def rcGetSwitchInfo (rc : RC) (gs : GState) : SwitchInfo :=
  let start := gs.switch_turn
  let stop := gs.switch_turn + gs.switch_duration - 1
  { turn := gs.turn
    switch_turn := start
    switch_duration := gs.switch_duration
    window_active := start ≤ gs.turn && gs.turn ≤ stop
    window_end_turn := stop
    my_team_switched := gs.switched_of rc.team
    enemy_team_switched := gs.switched_of rc.team.enemy }

/-- `can_switch_maps` (lines 853-856). -/
def rcCanSwitchMaps (rc : RC) (gs : GState) : Bool :=
  (rcGetSwitchInfo rc gs).window_active && !(rcGetSwitchInfo rc gs).my_team_switched

/-- `switch_maps` (lines 858-876): no budget is consumed; delegates to
`GameState.request_switch`. -/
def rcSwitchMaps (rc : RC) (gs : GState) : Except PyErr (Bool × RC × GState) :=
  if !rcCanSwitchMaps rc gs then .ok (false, rc, gs)
  else
    let r := gs.request_switch rc.team
    .ok (r.1, rc, r.2)

/-- The record returned by `get_bot_state` (lines 124-143). -/
structure BotView where
  bot_id : Nat
  team : Team
  x : Int
  y : Int
  team_money : Int
  holding : Option Item
  map_team : Team
  deriving DecidableEq, Repr

/-- `get_bot_state` (lines 124-143): the lookup exception is caught and
surfaced as `None`. -/
def rcGetBotState (gs : GState) (bot_id : Nat) : Option BotView :=
  match gs.getBotE bot_id with
  | .error _ => none
  | .ok b =>
      some { bot_id := b.bot_id, team := b.team, x := b.x, y := b.y
             team_money := gs.get_team_money b.team
             holding := b.holding, map_team := b.map_team }

/-- `get_tile` (lines 145-152): deep copy on success, `None` on any failure
(the out-of-bounds exception is caught). -/
def rcGetTile (gs : GState) (t : Team) (x y : Int) : Option Tile :=
  match gs.get_tileE t x y with
  | .error _ => none
  | .ok tile => some tile

/-- One order record from `get_orders` (lines 97-114). -/
structure OrderView where
  order_id : Nat
  required : List String
  created_turn : Nat
  expires_turn : Nat
  reward : Int
  penalty : Int
  claimed_by : Option Nat
  completed_turn : Option Nat
  is_active : Bool
  deriving DecidableEq, Repr

/-- `get_orders` (lines 97-114). -/
def rcGetOrders (gs : GState) (t : Team) : List OrderView :=
  (gs.orders_of t).map fun o =>
    { order_id := o.order_id
      required := o.required.map FoodType.food_name
      created_turn := o.created_turn
      expires_turn := o.expires_turn
      reward := o.reward
      penalty := o.penalty
      claimed_by := o.claimed_by
      completed_turn := o.completed_turn
      is_active := o.is_active gs.turn }

/-- Every public method of the gateway surface modelled here. -/
inductive GwCall
  | act (bot_id : Nat) (c : ActCall)
  | move (bot_id : Nat) (dx dy : Int)
  | can_move (bot_id : Nat) (dx dy : Int)
  | can_buy (bot_id : Nat) (item : Buyable) (tx ty : Option Int)
  | can_start_cook (bot_id : Nat) (tx ty : Option Int)
  | can_submit (bot_id : Nat) (tx ty : Option Int)
  | can_switch_maps
  | switch_maps
  | get_switch_info
  | get_map (t : Team)
  | get_tile (t : Team) (x y : Int)
  | get_orders (t : Team)
  | get_bot_state (bot_id : Nat)
  | get_team_bot_ids (t : Team)
  | get_team_money (t : Team)
  | get_turn
  deriving DecidableEq, Repr

/-- The value a gateway call hands back to agent code: a boolean, an
observation structure, or `None` — never an exception. -/
inductive GwRet
  | boolR (b : Bool)
  | tileR (t : Option Tile)
  | mapR (m : KMap)
  | ordersR (l : List OrderView)
  | botR (v : Option BotView)
  | idsR (l : List Nat)
  | intR (n : Int)
  | natR (n : Nat)
  | switchR (s : SwitchInfo)
  deriving DecidableEq, Repr

/-- Dispatch of the whole gateway surface: the boundary that agent code
calls.  Observation queries leave the state unchanged. -/
def runCall (rc : RC) (gs : GState) : GwCall → Except PyErr (GwRet × RC × GState)
  | .act bot_id c =>
      (runAct rc gs bot_id c).map
        fun (r : Bool × RC × GState) => (.boolR r.1, r.2.1, r.2.2)
  | .move bot_id dx dy =>
      (rcMove rc gs bot_id dx dy).map
        fun (r : Bool × RC × GState) => (.boolR r.1, r.2.1, r.2.2)
  | .can_move bot_id dx dy => .ok (.boolR (rcCanMove rc gs bot_id dx dy), rc, gs)
  | .can_buy bot_id item tx ty =>
      (rcCanBuy rc gs bot_id item tx ty).map fun (b : Bool) => (.boolR b, rc, gs)
  | .can_start_cook bot_id tx ty =>
      (rcCanStartCook rc gs bot_id tx ty).map fun (b : Bool) => (.boolR b, rc, gs)
  | .can_submit bot_id tx ty =>
      (rcCanSubmit rc gs bot_id tx ty).map fun (b : Bool) => (.boolR b, rc, gs)
  | .can_switch_maps => .ok (.boolR (rcCanSwitchMaps rc gs), rc, gs)
  | .switch_maps =>
      (rcSwitchMaps rc gs).map
        fun (r : Bool × RC × GState) => (.boolR r.1, r.2.1, r.2.2)
  | .get_switch_info => .ok (.switchR (rcGetSwitchInfo rc gs), rc, gs)
  | .get_map t => .ok (.mapR (gs.get_map t), rc, gs)
  | .get_tile t x y => .ok (.tileR (rcGetTile gs t x y), rc, gs)
  | .get_orders t => .ok (.ordersR (rcGetOrders gs t), rc, gs)
  | .get_bot_state bot_id => .ok (.botR (rcGetBotState gs bot_id), rc, gs)
  | .get_team_bot_ids t => .ok (.idsR (get_team_bot_ids gs t), rc, gs)
  | .get_team_money t => .ok (.intR (gs.get_team_money t), rc, gs)
  | .get_turn => .ok (.natR gs.turn, rc, gs)

/-! ## The match driver (`Game`, `game.py`)

The agent callbacks are arbitrary Python code running under a wall-clock
timeout; the model abstracts each turn's two invocations as an oracle: per
turn, whether each callback completed normally (`false` models an uncaught
exception or a timeout in `call_player`, lines 143-181), and the combined
effect of the environmental tick plus both callbacks' gateway actions on the
world state.  The render hook is disabled (`render_enabled = False`), as in a
headless match. -/

structure MatchEnv where
  turn_limit : Nat
  /-- Whether the blue / red callback completed normally on turn index `i`
  (false ⇔ `call_player` saw a timeout or an exception). -/
  blue_ok : Nat → Bool
  red_ok : Nat → Bool
  /-- `start_turn` plus both players' gateway-mediated mutations on turn `i`. -/
  stepState : Nat → GState → GState

/-- `call_player` (lines 143-181): an agent whose construction failed is an
automatic failure every turn; otherwise the callback's own outcome. -/
def call_player (failed_init : Bool) (okf : Nat → Bool) (i : Nat) : Bool :=
  if failed_init then false else okf i

/-- The outcome of `run_game` (lines 192-249): the Python return value, and
the `winner` argument passed to `export_replay` (`none` when the game ended
before any export). -/
structure GameResult where
  retVal : Option Team
  replay_winner : Option (Option Team)
  deriving DecidableEq, Repr

/-- The turn-limit scoring at the end of `run_game` (lines 233-249): compare
team money, strictly higher wins, equal is a draw.  The computed winner is
exported to the replay, but the source then executes `return None`. -/
def turnLimitResult (gs : GState) : GameResult :=
  let red_money := gs.get_team_money .RED
  let blue_money := gs.get_team_money .BLUE
  let winner : Option Team :=
    if red_money > blue_money then some .RED
    else if blue_money > red_money then some .BLUE
    else none
  { retVal := none, replay_winner := some winner }

/-- The turn loop of `run_game` (lines 204-231): tick, call blue then red,
then resolve forfeits; `fuel` is the number of loop iterations left and `i`
the current turn index. -/
def runGameLoop (env : MatchEnv) (rfi bfi : Bool) :
    Nat → Nat → GState → GameResult × GState
  | 0, _, gs => (turnLimitResult gs, gs)
  | fuel + 1, i, gs =>
      let gs1 := env.stepState i gs
      let blue_ok := call_player bfi env.blue_ok i
      let red_ok := call_player rfi env.red_ok i
      if !blue_ok && red_ok then
        ({ retVal := some .RED, replay_winner := some (some .RED) }, gs1)
      else if !red_ok && blue_ok then
        ({ retVal := some .BLUE, replay_winner := some (some .BLUE) }, gs1)
      else if !red_ok && !blue_ok then
        ({ retVal := none, replay_winner := some none }, gs1)
      else runGameLoop env rfi bfi fuel (i + 1) gs1

/-- `run_game` (lines 192-249) with rendering disabled.  `rfi`/`bfi` are the
`red_failed_init`/`blue_failed_init` flags set in the constructor. -/
def runGame (env : MatchEnv) (rfi bfi : Bool) (gs0 : GState) : GameResult × GState :=
  if rfi && bfi then ({ retVal := none, replay_winner := none }, gs0)
  else runGameLoop env rfi bfi env.turn_limit 0 gs0

/-! ## Object-identity model for the deep-copy observation API (C6)

`get_map`/`get_tile` (`robot_controller.py` lines 93-95 and 145-152) return
`copy.deepcopy` of authoritative objects.  To state what deep copying buys,
this section models Python object identity explicitly: a heap of tile
objects (each holding a pointer to an item object) and a heap of item
objects.  `copy.deepcopy` allocates fresh cells for the tile *and* for the
item it points to; the authoritative map is a list of tile addresses.
Mutations are writes to heap cells; the claim is that writes to the copy's
cells never change reads of the pre-existing cells. -/

/-- A heap for the aliasing model: tile objects (their mutable `item` slot,
as a pointer) and item objects. -/
structure ObjHeap where
  tiles : List (Option Nat)
  items : List Item
  deriving DecidableEq, Repr

/-- Read a tile object's `item` slot. -/
def ObjHeap.readTileSlot (h : ObjHeap) (a : Nat) : Option Nat :=
  h.tiles.getD a none

/-- Read an item object. -/
def ObjHeap.readItem (h : ObjHeap) (a : Nat) : Item :=
  h.items.getD a default

/-- `copy.deepcopy` of one tile object: allocate a fresh item cell for its
content (when present) and a fresh tile cell; returns the copy's address. -/
def ObjHeap.copyTile (h : ObjHeap) (a : Nat) : ObjHeap × Nat :=
  match h.readTileSlot a with
  | none => ({ h with tiles := h.tiles ++ [none] }, h.tiles.length)
  | some ia =>
      let v := h.readItem ia
      ({ tiles := h.tiles ++ [some h.items.length], items := h.items ++ [v] },
       h.tiles.length)

/-- `copy.deepcopy` of a map object (`get_map`): copy every tile of the grid
in order; returns the fresh tile addresses. -/
def ObjHeap.copyGrid (h : ObjHeap) : List Nat → ObjHeap × List Nat
  | [] => (h, [])
  | a :: rest =>
      (((h.copyTile a).1.copyGrid rest).1,
       (h.copyTile a).2 :: ((h.copyTile a).1.copyGrid rest).2)

/-- A mutation agent code might apply to a returned observation object:
overwrite a tile object's slot, or overwrite an item object. -/
inductive Mut
  | setSlot (a : Nat) (v : Option Nat)
  | setItem (a : Nat) (v : Item)
  deriving DecidableEq, Repr

/-- Apply one mutation to the heap. -/
def ObjHeap.applyMut (h : ObjHeap) : Mut → ObjHeap
  | .setSlot a v => { h with tiles := h.tiles.set a v }
  | .setItem a v => { h with items := h.items.set a v }

/-- Apply a sequence of mutations. -/
def ObjHeap.applyMuts (h : ObjHeap) (ms : List Mut) : ObjHeap :=
  ms.foldl ObjHeap.applyMut h

/-- The addresses a mutation touches lie beyond the original heap: this is
what "the mutation only targets the returned copy" means, since every cell
of the copy is allocated at or past the original lengths. -/
def MutFresh (origTiles origItems : Nat) : Mut → Prop
  | .setSlot a _ => origTiles ≤ a
  | .setItem a _ => origItems ≤ a

/-! ## Basic lemmas about budgets and targeting -/

@[simp]
theorem dget_dset_self (d : List (Nat × Nat)) (k v : Nat) :
    dget (dset d k v) k = v := by
  induction d with
  | nil => simp [dget, dset]
  | cons kv rest ih =>
      by_cases h : kv.1 = k <;> simp [dget, dset, h, ih]

theorem dget_dset_ne (d : List (Nat × Nat)) {k k' : Nat} (v : Nat) (h : k ≠ k') :
    dget (dset d k v) k' = dget d k' := by
  induction d with
  | nil => simp [dget, dset, h]
  | cons kv rest ih =>
      by_cases hk : kv.1 = k
      · simp [dget, dset, hk, h]
      · simp only [dset, if_neg hk, dget]
        by_cases hk' : kv.1 = k' <;> simp [hk', ih]

@[simp]
theorem refresh_turn_budgets_team (rc : RC) (gs : GState) :
    (refresh_turn_budgets rc gs).team = rc.team := rfl

@[simp]
theorem refresh_turn_budgets_last_seen (rc : RC) (gs : GState) :
    (refresh_turn_budgets rc gs).last_seen_turn = rc.last_seen_turn := rfl

@[simp]
theorem ensure_turn_team (rc : RC) (gs : GState) :
    (ensure_turn rc gs).team = rc.team := by
  unfold ensure_turn; split <;> rfl

@[simp]
theorem ensure_turn_last_seen (rc : RC) (gs : GState) :
    (ensure_turn rc gs).last_seen_turn = gs.turn := by
  unfold ensure_turn
  split
  · rfl
  · next h => omega

theorem ensure_turn_same (rc : RC) (gs : GState) (h : gs.turn = rc.last_seen_turn) :
    ensure_turn rc gs = rc := by
  unfold ensure_turn
  simp [h]

@[simp]
theorem consume_action_team (rc : RC) (gs : GState) (bot_id : Nat) :
    (consume_action rc gs bot_id).2.team = rc.team := by
  unfold consume_action
  split <;> simp

@[simp]
theorem consume_action_last_seen (rc : RC) (gs : GState) (bot_id : Nat) :
    (consume_action rc gs bot_id).2.last_seen_turn = gs.turn := by
  unfold consume_action
  split <;> simp

@[simp]
theorem consume_move_team (rc : RC) (gs : GState) (bot_id : Nat) :
    (consume_move rc gs bot_id).2.team = rc.team := by
  unfold consume_move
  split <;> simp

@[simp]
theorem consume_move_last_seen (rc : RC) (gs : GState) (bot_id : Nat) :
    (consume_move rc gs bot_id).2.last_seen_turn = gs.turn := by
  unfold consume_move
  split <;> simp

/-- After any `__consume_action`, the budget entry of the consuming bot is
the (truncated) predecessor of its refreshed value: the unit is spent on
attempt, before any further precondition check. -/
theorem dget_consume_action (rc : RC) (gs : GState) (bot_id : Nat) :
    dget (consume_action rc gs bot_id).2.actions_left bot_id =
      dget (ensure_turn rc gs).actions_left bot_id - 1 := by
  unfold consume_action
  split
  · next h => simp_all
  · simp

/-- After any `__consume_move`, the move budget entry of the bot is the
(truncated) predecessor of its refreshed value. -/
theorem dget_consume_move (rc : RC) (gs : GState) (bot_id : Nat) :
    dget (consume_move rc gs bot_id).2.moves_left bot_id =
      dget (ensure_turn rc gs).moves_left bot_id - 1 := by
  unfold consume_move
  split
  · next h => simp_all
  · simp

/-- `__consume_action` succeeds exactly when the refreshed budget entry is
positive. -/
theorem consume_action_fst (rc : RC) (gs : GState) (bot_id : Nat) :
    (consume_action rc gs bot_id).1 =
      decide (dget (ensure_turn rc gs).actions_left bot_id ≠ 0) := by
  unfold consume_action
  split <;> simp_all

theorem consume_action_false (rc : RC) (gs : GState) (bot_id : Nat)
    (h : dget (ensure_turn rc gs).actions_left bot_id = 0) :
    consume_action rc gs bot_id = (false, ensure_turn rc gs) := by
  unfold consume_action
  simp [h]

theorem consume_move_false (rc : RC) (gs : GState) (bot_id : Nat)
    (h : dget (ensure_turn rc gs).moves_left bot_id = 0) :
    consume_move rc gs bot_id = (false, ensure_turn rc gs) := by
  unfold consume_move
  simp [h]

/-- `__resolve_target_tile` never lets the tile-read exception escape: the
read is guarded by the `in_bounds` check. -/
theorem resolve_target_tile_ok (team : Team) (gs : GState) (bot_id : Nat)
    (tx ty : Option Int) :
    ∃ o, resolve_target_tile team gs bot_id tx ty = .ok o := by
  unfold resolve_target_tile
  cases safe_get_bot team gs bot_id with
  | none => exact ⟨none, rfl⟩
  | some b =>
      simp only
      split
      · exact ⟨none, rfl⟩
      · split
        · exact ⟨none, rfl⟩
        · next h =>
            unfold GState.get_tileE
            rw [if_pos (by simpa using h)]
            exact ⟨_, rfl⟩

/-! ## The gateway never lets an exception escape (towards C7) -/

theorem pickupCore_ok (gs : GState) (team : Team) (bot_id : Nat) (b : Bot)
    (tx ty : Option Int) : ∃ r, pickupCore gs team bot_id b tx ty = .ok r := by
  obtain ⟨o, ho⟩ := resolve_target_tile_ok team gs bot_id tx ty
  unfold pickupCore
  rw [ho]
  repeat' split
  all_goals first
    | exact ⟨_, rfl⟩
    | simp_all

theorem placeCore_ok (gs : GState) (team : Team) (bot_id : Nat) (b : Bot)
    (tx ty : Option Int) : ∃ r, placeCore gs team bot_id b tx ty = .ok r := by
  obtain ⟨o, ho⟩ := resolve_target_tile_ok team gs bot_id tx ty
  unfold placeCore
  rw [ho]
  repeat' split
  all_goals first
    | exact ⟨_, rfl⟩
    | simp_all

theorem trashCore_ok (gs : GState) (team : Team) (bot_id : Nat) (b : Bot)
    (tx ty : Option Int) : ∃ r, trashCore gs team bot_id b tx ty = .ok r := by
  obtain ⟨o, ho⟩ := resolve_target_tile_ok team gs bot_id tx ty
  unfold trashCore
  rw [ho]
  repeat' split
  all_goals first
    | exact ⟨_, rfl⟩
    | simp_all

theorem buyCore_ok (gs : GState) (team : Team) (bot_id : Nat) (b : Bot)
    (item : Buyable) (tx ty : Option Int) :
    ∃ r, buyCore gs team bot_id b item tx ty = .ok r := by
  obtain ⟨o, ho⟩ := resolve_target_tile_ok team gs bot_id tx ty
  unfold buyCore
  rw [ho]
  repeat' split
  all_goals first
    | exact ⟨_, rfl⟩
    | simp_all

theorem chopCore_ok (gs : GState) (team : Team) (bot_id : Nat) (b : Bot)
    (tx ty : Option Int) : ∃ r, chopCore gs team bot_id b tx ty = .ok r := by
  obtain ⟨o, ho⟩ := resolve_target_tile_ok team gs bot_id tx ty
  unfold chopCore
  rw [ho]
  repeat' split
  all_goals first
    | exact ⟨_, rfl⟩
    | simp_all

theorem start_cookCore_ok (gs : GState) (team : Team) (bot_id : Nat) (b : Bot)
    (tx ty : Option Int) : ∃ r, start_cookCore gs team bot_id b tx ty = .ok r := by
  obtain ⟨o, ho⟩ := resolve_target_tile_ok team gs bot_id tx ty
  unfold start_cookCore
  rw [ho]
  repeat' split
  all_goals first
    | exact ⟨_, rfl⟩
    | simp_all

theorem take_from_panCore_ok (gs : GState) (team : Team) (bot_id : Nat) (b : Bot)
    (tx ty : Option Int) : ∃ r, take_from_panCore gs team bot_id b tx ty = .ok r := by
  obtain ⟨o, ho⟩ := resolve_target_tile_ok team gs bot_id tx ty
  unfold take_from_panCore
  rw [ho]
  repeat' split
  all_goals first
    | exact ⟨_, rfl⟩
    | simp_all

theorem take_clean_plateCore_ok (gs : GState) (team : Team) (bot_id : Nat) (b : Bot)
    (tx ty : Option Int) : ∃ r, take_clean_plateCore gs team bot_id b tx ty = .ok r := by
  obtain ⟨o, ho⟩ := resolve_target_tile_ok team gs bot_id tx ty
  unfold take_clean_plateCore
  rw [ho]
  repeat' split
  all_goals first
    | exact ⟨_, rfl⟩
    | simp_all

theorem put_dirty_plate_in_sinkCore_ok (gs : GState) (team : Team) (bot_id : Nat)
    (b : Bot) (tx ty : Option Int) :
    ∃ r, put_dirty_plate_in_sinkCore gs team bot_id b tx ty = .ok r := by
  obtain ⟨o, ho⟩ := resolve_target_tile_ok team gs bot_id tx ty
  unfold put_dirty_plate_in_sinkCore
  rw [ho]
  repeat' split
  all_goals first
    | exact ⟨_, rfl⟩
    | simp_all

theorem wash_sinkCore_ok (gs : GState) (team : Team) (bot_id : Nat) (b : Bot)
    (tx ty : Option Int) : ∃ r, wash_sinkCore gs team bot_id b tx ty = .ok r := by
  obtain ⟨o, ho⟩ := resolve_target_tile_ok team gs bot_id tx ty
  unfold wash_sinkCore
  rw [ho]
  repeat' split
  all_goals first
    | exact ⟨_, rfl⟩
    | simp_all

theorem add_food_to_plateCore_ok (gs : GState) (team : Team) (bot_id : Nat) (b : Bot)
    (tx ty : Option Int) : ∃ r, add_food_to_plateCore gs team bot_id b tx ty = .ok r := by
  obtain ⟨o, ho⟩ := resolve_target_tile_ok team gs bot_id tx ty
  unfold add_food_to_plateCore
  rw [ho]
  repeat' split
  all_goals first
    | exact ⟨_, rfl⟩
    | simp_all

theorem submitCore_ok (gs : GState) (team : Team) (bot_id : Nat) (b : Bot)
    (tx ty : Option Int) : ∃ r, submitCore gs team bot_id b tx ty = .ok r := by
  obtain ⟨o, ho⟩ := resolve_target_tile_ok team gs bot_id tx ty
  unfold submitCore
  rw [ho]
  repeat' split
  all_goals first
    | exact ⟨_, rfl⟩
    | simp_all

theorem actCore_ok (c : ActCall) (gs : GState) (team : Team) (bot_id : Nat) (b : Bot) :
    ∃ r, actCore c gs team bot_id b = .ok r := by
  cases c <;>
    first
      | exact pickupCore_ok ..
      | exact placeCore_ok ..
      | exact trashCore_ok ..
      | exact buyCore_ok ..
      | exact chopCore_ok ..
      | exact start_cookCore_ok ..
      | exact take_from_panCore_ok ..
      | exact take_clean_plateCore_ok ..
      | exact put_dirty_plate_in_sinkCore_ok ..
      | exact wash_sinkCore_ok ..
      | exact add_food_to_plateCore_ok ..
      | exact submitCore_ok ..

theorem runAct_ok (rc : RC) (gs : GState) (bot_id : Nat) (c : ActCall) :
    ∃ r, runAct rc gs bot_id c = .ok r := by
  unfold runAct
  split
  all_goals
    cases hc : consume_action rc gs bot_id with
    | mk ok1 rc1 =>
        cases hsb : safe_get_bot rc.team gs bot_id with
        | none => cases ok1 <;> simp [hc, hsb]
        | some b =>
            obtain ⟨r, hr⟩ := actCore_ok c gs rc.team bot_id b
            rcases r with ⟨rb, rgs⟩
            cases ok1 <;> cases rb <;> simp [hc, hsb, hr, Except.map]

theorem rcMove_ok (rc : RC) (gs : GState) (bot_id : Nat) (dx dy : Int) :
    ∃ r, rcMove rc gs bot_id dx dy = .ok r := by
  unfold rcMove
  repeat' split
  all_goals exact ⟨_, rfl⟩

theorem rcCanBuy_ok (rc : RC) (gs : GState) (bot_id : Nat) (item : Buyable)
    (tx ty : Option Int) : ∃ r, rcCanBuy rc gs bot_id item tx ty = .ok r := by
  obtain ⟨o, ho⟩ := resolve_target_tile_ok rc.team gs bot_id tx ty
  unfold rcCanBuy
  rw [ho]
  repeat' split
  all_goals first
    | exact ⟨_, rfl⟩
    | simp_all

theorem rcCanStartCook_ok (rc : RC) (gs : GState) (bot_id : Nat)
    (tx ty : Option Int) : ∃ r, rcCanStartCook rc gs bot_id tx ty = .ok r := by
  obtain ⟨o, ho⟩ := resolve_target_tile_ok rc.team gs bot_id tx ty
  unfold rcCanStartCook
  rw [ho]
  repeat' split
  all_goals first
    | exact ⟨_, rfl⟩
    | simp_all

theorem rcCanSubmit_ok (rc : RC) (gs : GState) (bot_id : Nat)
    (tx ty : Option Int) : ∃ r, rcCanSubmit rc gs bot_id tx ty = .ok r := by
  obtain ⟨o, ho⟩ := resolve_target_tile_ok rc.team gs bot_id tx ty
  unfold rcCanSubmit
  rw [ho]
  repeat' split
  all_goals first
    | exact ⟨_, rfl⟩
    | simp_all

theorem rcSwitchMaps_ok (rc : RC) (gs : GState) :
    ∃ r, rcSwitchMaps rc gs = .ok r := by
  unfold rcSwitchMaps
  split <;> exact ⟨_, rfl⟩

/-! ## Frame lemmas: which fields each state primitive leaves unchanged -/

section MetaFrame

variable (gs : GState) (tm t : Team) (x y : Int) (tile : Tile) (bot_id : Nat)
variable (f : Bot → Bot) (delta : Int) (l : List KOrder)

@[simp] theorem set_tile_turn : (gs.set_tile tm x y tile).turn = gs.turn := by
  cases tm <;> rfl
@[simp] theorem set_tile_switch_turn :
    (gs.set_tile tm x y tile).switch_turn = gs.switch_turn := by cases tm <;> rfl
@[simp] theorem set_tile_switch_duration :
    (gs.set_tile tm x y tile).switch_duration = gs.switch_duration := by cases tm <;> rfl
@[simp] theorem set_tile_switched_red :
    (gs.set_tile tm x y tile).switched_red = gs.switched_red := by cases tm <;> rfl
@[simp] theorem set_tile_switched_blue :
    (gs.set_tile tm x y tile).switched_blue = gs.switched_blue := by cases tm <;> rfl
@[simp] theorem set_tile_bots : (gs.set_tile tm x y tile).bots = gs.bots := by
  cases tm <;> rfl
@[simp] theorem set_tile_red_money : (gs.set_tile tm x y tile).red_money = gs.red_money := by
  cases tm <;> rfl
@[simp] theorem set_tile_blue_money : (gs.set_tile tm x y tile).blue_money = gs.blue_money := by
  cases tm <;> rfl
@[simp] theorem set_tile_orders_red : (gs.set_tile tm x y tile).orders_red = gs.orders_red := by
  cases tm <;> rfl
@[simp] theorem set_tile_orders_blue : (gs.set_tile tm x y tile).orders_blue = gs.orders_blue := by
  cases tm <;> rfl

@[simp] theorem updateBot_turn : (gs.updateBot bot_id f).turn = gs.turn := rfl
@[simp] theorem updateBot_switch_turn :
    (gs.updateBot bot_id f).switch_turn = gs.switch_turn := rfl
@[simp] theorem updateBot_switch_duration :
    (gs.updateBot bot_id f).switch_duration = gs.switch_duration := rfl
@[simp] theorem updateBot_switched_red :
    (gs.updateBot bot_id f).switched_red = gs.switched_red := rfl
@[simp] theorem updateBot_switched_blue :
    (gs.updateBot bot_id f).switched_blue = gs.switched_blue := rfl
@[simp] theorem updateBot_red_money : (gs.updateBot bot_id f).red_money = gs.red_money := rfl
@[simp] theorem updateBot_blue_money : (gs.updateBot bot_id f).blue_money = gs.blue_money := rfl
@[simp] theorem updateBot_red_map : (gs.updateBot bot_id f).red_map = gs.red_map := rfl
@[simp] theorem updateBot_blue_map : (gs.updateBot bot_id f).blue_map = gs.blue_map := rfl
@[simp] theorem updateBot_get_map : (gs.updateBot bot_id f).get_map tm = gs.get_map tm := by
  cases tm <;> rfl

@[simp] theorem add_team_money_turn : (gs.add_team_money tm delta).turn = gs.turn := by
  cases tm <;> rfl
@[simp] theorem add_team_money_switch_turn :
    (gs.add_team_money tm delta).switch_turn = gs.switch_turn := by cases tm <;> rfl
@[simp] theorem add_team_money_switch_duration :
    (gs.add_team_money tm delta).switch_duration = gs.switch_duration := by cases tm <;> rfl
@[simp] theorem add_team_money_switched_red :
    (gs.add_team_money tm delta).switched_red = gs.switched_red := by cases tm <;> rfl
@[simp] theorem add_team_money_switched_blue :
    (gs.add_team_money tm delta).switched_blue = gs.switched_blue := by cases tm <;> rfl
@[simp] theorem add_team_money_bots : (gs.add_team_money tm delta).bots = gs.bots := by
  cases tm <;> rfl
@[simp] theorem add_team_money_red_map : (gs.add_team_money tm delta).red_map = gs.red_map := by
  cases tm <;> rfl
@[simp] theorem add_team_money_blue_map : (gs.add_team_money tm delta).blue_map = gs.blue_map := by
  cases tm <;> rfl
@[simp] theorem add_team_money_get_map :
    (gs.add_team_money tm delta).get_map t = gs.get_map t := by
  cases tm <;> cases t <;> rfl

/-- The ledger after `add_team_money`. -/
theorem add_team_money_get (gs : GState) (tm t : Team) (delta : Int) :
    (gs.add_team_money tm delta).get_team_money t =
      if t = tm then gs.get_team_money t + delta else gs.get_team_money t := by
  cases tm <;> cases t <;> simp [GState.add_team_money, GState.get_team_money]

@[simp] theorem set_orders_turn : (gs.set_orders tm l).turn = gs.turn := by cases tm <;> rfl
@[simp] theorem set_orders_switch_turn :
    (gs.set_orders tm l).switch_turn = gs.switch_turn := by cases tm <;> rfl
@[simp] theorem set_orders_switch_duration :
    (gs.set_orders tm l).switch_duration = gs.switch_duration := by cases tm <;> rfl
@[simp] theorem set_orders_switched_red :
    (gs.set_orders tm l).switched_red = gs.switched_red := by cases tm <;> rfl
@[simp] theorem set_orders_switched_blue :
    (gs.set_orders tm l).switched_blue = gs.switched_blue := by cases tm <;> rfl
@[simp] theorem set_orders_bots : (gs.set_orders tm l).bots = gs.bots := by cases tm <;> rfl
@[simp] theorem set_orders_red_money : (gs.set_orders tm l).red_money = gs.red_money := by
  cases tm <;> rfl
@[simp] theorem set_orders_blue_money : (gs.set_orders tm l).blue_money = gs.blue_money := by
  cases tm <;> rfl

@[simp] theorem switched_of_set_tile :
    (gs.set_tile tm x y tile).switched_of t = gs.switched_of t := by
  cases tm <;> cases t <;> rfl
@[simp] theorem switched_of_updateBot :
    (gs.updateBot bot_id f).switched_of t = gs.switched_of t := by cases t <;> rfl
@[simp] theorem switched_of_add_team_money :
    (gs.add_team_money tm delta).switched_of t = gs.switched_of t := by
  cases tm <;> cases t <;> rfl
@[simp] theorem switched_of_set_orders :
    (gs.set_orders tm l).switched_of t = gs.switched_of t := by
  cases tm <;> cases t <;> rfl

end MetaFrame

/-- The metadata a gateway action never touches: the turn counter and all
switch bookkeeping. -/
def PreservesMeta (gs gs' : GState) : Prop :=
  gs'.turn = gs.turn ∧ gs'.switch_turn = gs.switch_turn ∧
  gs'.switch_duration = gs.switch_duration ∧
  gs'.switched_red = gs.switched_red ∧ gs'.switched_blue = gs.switched_blue

@[simp] theorem preservesMeta_self (gs : GState) : PreservesMeta gs gs :=
  ⟨Eq.refl _, Eq.refl _, Eq.refl _, Eq.refl _, Eq.refl _⟩

theorem move_bot_meta (gs : GState) (bot_id : Nat) (dx dy : Int) :
    PreservesMeta gs (gs.move_bot bot_id dx dy).2 := by
  unfold GState.move_bot
  repeat' split
  all_goals simp [PreservesMeta]

theorem submit_plate_meta (gs : GState) (bot_id : Nat) (x y : Int) :
    PreservesMeta gs (gs.submit_plate bot_id x y).2 := by
  unfold GState.submit_plate
  repeat' split
  all_goals simp [PreservesMeta]

theorem grant_buyable_meta (gs : GState) (t : Team) (bot_id : Nat) (item : Buyable) :
    PreservesMeta gs (grant_buyable_to_bot gs t bot_id item).2 := by
  unfold grant_buyable_to_bot
  repeat' split
  all_goals simp [PreservesMeta]

theorem PreservesMeta.switched_of {gs gs' : GState} (h : PreservesMeta gs gs')
    (t : Team) : gs'.switched_of t = gs.switched_of t := by
  cases t <;> simp [GState.switched_of, h.2.2.2.1, h.2.2.2.2]

section MetaFields

variable (gs : GState) (t : Team) (bot_id : Nat) (x y dx dy : Int) (item : Buyable)

@[simp] theorem move_bot_turn : (gs.move_bot bot_id dx dy).2.turn = gs.turn :=
  (move_bot_meta gs bot_id dx dy).1
@[simp] theorem move_bot_switch_turn :
    (gs.move_bot bot_id dx dy).2.switch_turn = gs.switch_turn :=
  (move_bot_meta gs bot_id dx dy).2.1
@[simp] theorem move_bot_switch_duration :
    (gs.move_bot bot_id dx dy).2.switch_duration = gs.switch_duration :=
  (move_bot_meta gs bot_id dx dy).2.2.1
@[simp] theorem move_bot_switched_red :
    (gs.move_bot bot_id dx dy).2.switched_red = gs.switched_red :=
  (move_bot_meta gs bot_id dx dy).2.2.2.1
@[simp] theorem move_bot_switched_blue :
    (gs.move_bot bot_id dx dy).2.switched_blue = gs.switched_blue :=
  (move_bot_meta gs bot_id dx dy).2.2.2.2

@[simp] theorem submit_plate_turn : (gs.submit_plate bot_id x y).2.turn = gs.turn :=
  (submit_plate_meta gs bot_id x y).1
@[simp] theorem submit_plate_switch_turn :
    (gs.submit_plate bot_id x y).2.switch_turn = gs.switch_turn :=
  (submit_plate_meta gs bot_id x y).2.1
@[simp] theorem submit_plate_switch_duration :
    (gs.submit_plate bot_id x y).2.switch_duration = gs.switch_duration :=
  (submit_plate_meta gs bot_id x y).2.2.1
@[simp] theorem submit_plate_switched_red :
    (gs.submit_plate bot_id x y).2.switched_red = gs.switched_red :=
  (submit_plate_meta gs bot_id x y).2.2.2.1
@[simp] theorem submit_plate_switched_blue :
    (gs.submit_plate bot_id x y).2.switched_blue = gs.switched_blue :=
  (submit_plate_meta gs bot_id x y).2.2.2.2

@[simp] theorem grant_turn : (grant_buyable_to_bot gs t bot_id item).2.turn = gs.turn :=
  (grant_buyable_meta gs t bot_id item).1
@[simp] theorem grant_switch_turn :
    (grant_buyable_to_bot gs t bot_id item).2.switch_turn = gs.switch_turn :=
  (grant_buyable_meta gs t bot_id item).2.1
@[simp] theorem grant_switch_duration :
    (grant_buyable_to_bot gs t bot_id item).2.switch_duration = gs.switch_duration :=
  (grant_buyable_meta gs t bot_id item).2.2.1
@[simp] theorem grant_switched_red :
    (grant_buyable_to_bot gs t bot_id item).2.switched_red = gs.switched_red :=
  (grant_buyable_meta gs t bot_id item).2.2.2.1
@[simp] theorem grant_switched_blue :
    (grant_buyable_to_bot gs t bot_id item).2.switched_blue = gs.switched_blue :=
  (grant_buyable_meta gs t bot_id item).2.2.2.2

end MetaFields

section CoreMeta

variable {gs gs' : GState} {team : Team} {bot_id : Nat} {b : Bot}
variable {tx ty : Option Int} {r : Bool}

theorem pickupCore_meta (h : pickupCore gs team bot_id b tx ty = .ok (r, gs')) :
    PreservesMeta gs gs' := by
  obtain ⟨o, ho⟩ := resolve_target_tile_ok team gs bot_id tx ty
  unfold pickupCore at h
  rw [ho] at h
  repeat' split at h
  all_goals
    first
      | (simp only [Except.ok.injEq, Prod.mk.injEq] at h
         obtain ⟨h1, h2⟩ := h
         subst h2
         simp [PreservesMeta])
      | simp_all [PreservesMeta]

theorem placeCore_meta (h : placeCore gs team bot_id b tx ty = .ok (r, gs')) :
    PreservesMeta gs gs' := by
  obtain ⟨o, ho⟩ := resolve_target_tile_ok team gs bot_id tx ty
  unfold placeCore at h
  rw [ho] at h
  repeat' split at h
  all_goals
    first
      | (simp only [Except.ok.injEq, Prod.mk.injEq] at h
         obtain ⟨h1, h2⟩ := h
         subst h2
         simp [PreservesMeta])
      | simp_all [PreservesMeta]

theorem trashCore_meta (h : trashCore gs team bot_id b tx ty = .ok (r, gs')) :
    PreservesMeta gs gs' := by
  obtain ⟨o, ho⟩ := resolve_target_tile_ok team gs bot_id tx ty
  unfold trashCore at h
  rw [ho] at h
  repeat' split at h
  all_goals
    first
      | (simp only [Except.ok.injEq, Prod.mk.injEq] at h
         obtain ⟨h1, h2⟩ := h
         subst h2
         simp [PreservesMeta])
      | simp_all [PreservesMeta]

theorem buyCore_meta {item : Buyable}
    (h : buyCore gs team bot_id b item tx ty = .ok (r, gs')) :
    PreservesMeta gs gs' := by
  obtain ⟨o, ho⟩ := resolve_target_tile_ok team gs bot_id tx ty
  unfold buyCore at h
  rw [ho] at h
  repeat' split at h
  all_goals
    first
      | (simp only [Except.ok.injEq, Prod.mk.injEq] at h
         obtain ⟨h1, h2⟩ := h
         subst h2
         simp [PreservesMeta])
      | simp_all [PreservesMeta]

theorem chopCore_meta (h : chopCore gs team bot_id b tx ty = .ok (r, gs')) :
    PreservesMeta gs gs' := by
  obtain ⟨o, ho⟩ := resolve_target_tile_ok team gs bot_id tx ty
  unfold chopCore at h
  rw [ho] at h
  repeat' split at h
  all_goals
    first
      | (simp only [Except.ok.injEq, Prod.mk.injEq] at h
         obtain ⟨h1, h2⟩ := h
         subst h2
         simp [PreservesMeta])
      | simp_all [PreservesMeta]

theorem start_cookCore_meta (h : start_cookCore gs team bot_id b tx ty = .ok (r, gs')) :
    PreservesMeta gs gs' := by
  obtain ⟨o, ho⟩ := resolve_target_tile_ok team gs bot_id tx ty
  unfold start_cookCore at h
  rw [ho] at h
  repeat' split at h
  all_goals
    first
      | (simp only [Except.ok.injEq, Prod.mk.injEq] at h
         obtain ⟨h1, h2⟩ := h
         subst h2
         simp [PreservesMeta])
      | simp_all [PreservesMeta]

theorem take_from_panCore_meta
    (h : take_from_panCore gs team bot_id b tx ty = .ok (r, gs')) :
    PreservesMeta gs gs' := by
  obtain ⟨o, ho⟩ := resolve_target_tile_ok team gs bot_id tx ty
  unfold take_from_panCore at h
  rw [ho] at h
  repeat' split at h
  all_goals
    first
      | (simp only [Except.ok.injEq, Prod.mk.injEq] at h
         obtain ⟨h1, h2⟩ := h
         subst h2
         simp [PreservesMeta])
      | simp_all [PreservesMeta]

theorem take_clean_plateCore_meta
    (h : take_clean_plateCore gs team bot_id b tx ty = .ok (r, gs')) :
    PreservesMeta gs gs' := by
  obtain ⟨o, ho⟩ := resolve_target_tile_ok team gs bot_id tx ty
  unfold take_clean_plateCore at h
  rw [ho] at h
  repeat' split at h
  all_goals
    first
      | (simp only [Except.ok.injEq, Prod.mk.injEq] at h
         obtain ⟨h1, h2⟩ := h
         subst h2
         simp [PreservesMeta])
      | simp_all [PreservesMeta]

theorem put_dirty_plate_in_sinkCore_meta
    (h : put_dirty_plate_in_sinkCore gs team bot_id b tx ty = .ok (r, gs')) :
    PreservesMeta gs gs' := by
  obtain ⟨o, ho⟩ := resolve_target_tile_ok team gs bot_id tx ty
  unfold put_dirty_plate_in_sinkCore at h
  rw [ho] at h
  repeat' split at h
  all_goals
    first
      | (simp only [Except.ok.injEq, Prod.mk.injEq] at h
         obtain ⟨h1, h2⟩ := h
         subst h2
         simp [PreservesMeta])
      | simp_all [PreservesMeta]

theorem wash_sinkCore_meta (h : wash_sinkCore gs team bot_id b tx ty = .ok (r, gs')) :
    PreservesMeta gs gs' := by
  obtain ⟨o, ho⟩ := resolve_target_tile_ok team gs bot_id tx ty
  unfold wash_sinkCore at h
  rw [ho] at h
  repeat' split at h
  all_goals
    first
      | (simp only [Except.ok.injEq, Prod.mk.injEq] at h
         obtain ⟨h1, h2⟩ := h
         subst h2
         simp [PreservesMeta])
      | simp_all [PreservesMeta]

theorem add_food_to_plateCore_meta
    (h : add_food_to_plateCore gs team bot_id b tx ty = .ok (r, gs')) :
    PreservesMeta gs gs' := by
  obtain ⟨o, ho⟩ := resolve_target_tile_ok team gs bot_id tx ty
  unfold add_food_to_plateCore at h
  rw [ho] at h
  repeat' split at h
  all_goals
    first
      | (simp only [Except.ok.injEq, Prod.mk.injEq] at h
         obtain ⟨h1, h2⟩ := h
         subst h2
         simp [PreservesMeta])
      | simp_all [PreservesMeta]

theorem submitCore_meta (h : submitCore gs team bot_id b tx ty = .ok (r, gs')) :
    PreservesMeta gs gs' := by
  obtain ⟨o, ho⟩ := resolve_target_tile_ok team gs bot_id tx ty
  unfold submitCore at h
  rw [ho] at h
  repeat' split at h
  all_goals
    first
      | (simp only [Except.ok.injEq, Prod.mk.injEq] at h
         obtain ⟨h1, h2⟩ := h
         subst h2
         simp [PreservesMeta])
      | simp_all [PreservesMeta]

theorem actCore_meta {c : ActCall} (h : actCore c gs team bot_id b = .ok (r, gs')) :
    PreservesMeta gs gs' := by
  cases c <;> simp only [actCore] at h
  all_goals
    first
      | exact pickupCore_meta h
      | exact placeCore_meta h
      | exact trashCore_meta h
      | exact buyCore_meta h
      | exact chopCore_meta h
      | exact start_cookCore_meta h
      | exact take_from_panCore_meta h
      | exact take_clean_plateCore_meta h
      | exact put_dirty_plate_in_sinkCore_meta h
      | exact wash_sinkCore_meta h
      | exact add_food_to_plateCore_meta h
      | exact submitCore_meta h

end CoreMeta

/-! ## Bot lookup and ledger lemmas -/

theorem safe_get_bot_spec {t : Team} {gs : GState} {bot_id : Nat} {b : Bot}
    (h : safe_get_bot t gs bot_id = some b) :
    gs.bots.find? (fun x => x.bot_id = bot_id) = some b ∧ b.team = t ∧ b.bot_id = bot_id := by
  unfold safe_get_bot GState.getBotE at h
  cases hf : gs.bots.find? (fun x => x.bot_id = bot_id) with
  | none => rw [hf] at h; exact absurd h (by simp)
  | some b0 =>
      rw [hf] at h
      simp only at h
      split at h
      · exact absurd h (by simp)
      · next hteam =>
          obtain rfl : b0 = b := by simpa using h
          refine ⟨rfl, by simpa using hteam, ?_⟩
          have := List.find?_some hf
          simpa using this

theorem find?_map_pred (l : List Bot) (g : Bot → Bot) (p : Bot → Bool)
    (hg : ∀ b, p (g b) = p b) :
    (l.map g).find? p = (l.find? p).map g := by
  induction l with
  | nil => rfl
  | cons hd tl ih =>
      by_cases hp : p hd = true
      · simp [List.find?_cons, hg, hp]
      · simp only [List.map_cons, List.find?_cons, hg, Bool.not_eq_true] at *
        rw [hp]
        simpa [hp] using ih

theorem safe_get_bot_updateBot (t : Team) (gs : GState) (id0 bot_id : Nat)
    (f : Bot → Bot) (hid : ∀ b, (f b).bot_id = b.bot_id)
    (hteam : ∀ b, (f b).team = b.team) :
    safe_get_bot t (gs.updateBot id0 f) bot_id =
      (safe_get_bot t gs bot_id).map fun b => if b.bot_id = id0 then f b else b := by
  unfold safe_get_bot GState.getBotE GState.updateBot
  rw [find?_map_pred _ _ _ (by intro b; by_cases hb : b.bot_id = id0 <;> simp [hb, hid])]
  cases gs.bots.find? (fun x => x.bot_id = bot_id) with
  | none => rfl
  | some b =>
      simp only [Option.map_some]
      by_cases hb : b.bot_id = id0 <;> by_cases ht : b.team = t <;>
        simp [hb, ht, hteam]

@[simp] theorem safe_get_bot_add_team_money (t tm : Team) (gs : GState)
    (delta : Int) (bot_id : Nat) :
    safe_get_bot t (gs.add_team_money tm delta) bot_id = safe_get_bot t gs bot_id := by
  unfold safe_get_bot GState.getBotE
  rw [add_team_money_bots]

@[simp] theorem safe_get_bot_set_tile (t tm : Team) (gs : GState) (x y : Int)
    (tile : Tile) (bot_id : Nat) :
    safe_get_bot t (gs.set_tile tm x y tile) bot_id = safe_get_bot t gs bot_id := by
  unfold safe_get_bot GState.getBotE
  rw [set_tile_bots]

@[simp] theorem safe_get_bot_set_orders (t tm : Team) (gs : GState)
    (l : List KOrder) (bot_id : Nat) :
    safe_get_bot t (gs.set_orders tm l) bot_id = safe_get_bot t gs bot_id := by
  unfold safe_get_bot GState.getBotE
  rw [set_orders_bots]

/-- A bot survives any `move_bot` (only positions change). -/
theorem safe_get_bot_move_bot (t : Team) (gs : GState) (id0 bot_id : Nat)
    (dx dy : Int) {b : Bot} (h : safe_get_bot t gs bot_id = some b) :
    ∃ b2, safe_get_bot t (gs.move_bot id0 dx dy).2 bot_id = some b2 := by
  unfold GState.move_bot
  cases hf : gs.bots.find? (fun x => x.bot_id = id0) with
  | none => exact ⟨b, h⟩
  | some b0 =>
      simp only
      split
      · exact ⟨b, h⟩
      · have hrw := safe_get_bot_updateBot t gs id0 bot_id
          (fun b1 => { b1 with x := b0.x + dx, y := b0.y + dy })
          (fun _ => rfl) (fun _ => rfl)
        rw [h] at hrw
        exact ⟨_, hrw⟩

@[simp] theorem updateBot_get_team_money (gs : GState) (bot_id : Nat) (f : Bot → Bot)
    (t : Team) : (gs.updateBot bot_id f).get_team_money t = gs.get_team_money t := by
  cases t <;> rfl

@[simp] theorem set_orders_get_team_money (gs : GState) (tm : Team) (l : List KOrder)
    (t : Team) : (gs.set_orders tm l).get_team_money t = gs.get_team_money t := by
  cases tm <;> cases t <;> rfl

@[simp] theorem set_tile_get_team_money (gs : GState) (tm : Team) (x y : Int)
    (tile : Tile) (t : Team) :
    (gs.set_tile tm x y tile).get_team_money t = gs.get_team_money t := by
  cases tm <;> cases t <;> rfl

@[simp] theorem set_orders_orders_of_self (gs : GState) (tm : Team) (l : List KOrder) :
    (gs.set_orders tm l).orders_of tm = l := by
  cases tm <;> rfl

@[simp] theorem add_team_money_orders_of (gs : GState) (tm : Team) (delta : Int)
    (t : Team) : (gs.add_team_money tm delta).orders_of t = gs.orders_of t := by
  cases tm <;> cases t <;> rfl

@[simp] theorem updateBot_orders_of (gs : GState) (bot_id : Nat) (f : Bot → Bot)
    (t : Team) : (gs.updateBot bot_id f).orders_of t = gs.orders_of t := by
  cases t <;> rfl

/-! ## Order matching lemmas (towards C1) -/

theorem matchAndComplete_eq_none_iff (l : List KOrder) (turn : Nat)
    (names : List String) :
    matchAndComplete l turn names = none ↔
      ∀ o ∈ l, ¬(o.is_active turn = true ∧
        namesMatch names (o.required.map FoodType.food_name) = true) := by
  induction l with
  | nil => simp [matchAndComplete]
  | cons hd tl ih =>
      unfold matchAndComplete
      split
      · next hcond =>
          simp only [Bool.and_eq_true] at hcond
          simp only [reduceCtorEq, false_iff]
          intro hall
          exact hall hd (by simp) ⟨hcond.1, hcond.2⟩
      · next hcond =>
          simp only [Bool.and_eq_true] at hcond
          rw [Option.map_eq_none', ih]
          constructor
          · intro hall o ho
            rcases List.mem_cons.mp ho with rfl | hmem
            · intro ⟨h1, h2⟩; exact hcond ⟨h1, h2⟩
            · exact hall o hmem
          · intro hall o ho
            exact hall o (List.mem_cons_of_mem _ ho)

theorem matchAndComplete_some_spec {l : List KOrder} {turn : Nat}
    {names : List String} {rew : Int} {l' : List KOrder}
    (h : matchAndComplete l turn names = some (rew, l')) :
    ∃ o ∈ l, o.is_active turn = true ∧
      namesMatch names (o.required.map FoodType.food_name) = true ∧
      rew = o.reward ∧ { o with completed_turn := some turn } ∈ l' := by
  induction l generalizing rew l' with
  | nil => simp [matchAndComplete] at h
  | cons hd tl ih =>
      unfold matchAndComplete at h
      split at h
      · next hcond =>
          simp only [Bool.and_eq_true] at hcond
          obtain ⟨h1, h2⟩ : hd.reward = rew ∧
              { hd with completed_turn := some turn } :: tl = l' := by
            simpa using h
          subst h2
          exact ⟨hd, by simp, hcond.1, hcond.2, h1.symm, by simp⟩
      · rw [Option.map_eq_some'] at h
        obtain ⟨⟨r0, l0⟩, hrec, heq⟩ := h
        obtain ⟨rfl, rfl⟩ : r0 = rew ∧ hd :: l0 = l' := by
          simpa using heq
        obtain ⟨o, ho, h1, h2, h3, h4⟩ := ih hrec
        exact ⟨o, List.mem_cons_of_mem _ ho, h1, h2, h3, List.mem_cons_of_mem _ h4⟩

/-- A completed order is never active. -/
theorem completed_not_active (o : KOrder) (turn t : Nat) :
    ({ o with completed_turn := some turn } : KOrder).is_active t = false := by
  simp [KOrder.is_active]

/-! ## Match-driver lemmas (towards C2 and C3) -/

@[simp] theorem call_player_false (okf : Nat → Bool) (i : Nat) :
    call_player false okf i = okf i := rfl

/-- If every turn before `i + n` completes normally and some callback fails
at turn `i + n` (within the remaining fuel), the loop stops there and
resolves the forfeit in favour of the responsive team. -/
theorem runGameLoop_fault (env : MatchEnv) :
    ∀ (n fuel i : Nat) (gs : GState), n < fuel →
    (∀ j, j < n → env.blue_ok (i + j) = true ∧ env.red_ok (i + j) = true) →
    (env.blue_ok (i + n) = false ∨ env.red_ok (i + n) = false) →
    (runGameLoop env false false fuel i gs).1 =
      (if env.blue_ok (i + n) = false ∧ env.red_ok (i + n) = true then
        { retVal := some .RED, replay_winner := some (some .RED) }
      else if env.red_ok (i + n) = false ∧ env.blue_ok (i + n) = true then
        { retVal := some .BLUE, replay_winner := some (some .BLUE) }
      else { retVal := none, replay_winner := some none }) := by
  intro n
  induction n with
  | zero =>
      intro fuel i gs hfuel _hok hfault
      match fuel, hfuel with
      | fuel + 1, _ =>
          unfold runGameLoop
          simp only [Nat.add_zero] at hfault ⊢
          simp only [call_player_false]
          rcases Bool.eq_false_or_eq_true (env.blue_ok i) with hB | hB <;>
            rcases Bool.eq_false_or_eq_true (env.red_ok i) with hR | hR <;>
              simp_all
  | succ n ih =>
      intro fuel i gs hfuel hok hfault
      match fuel, hfuel with
      | fuel + 1, hfuel =>
          have h0 := hok 0 (Nat.succ_pos n)
          rw [Nat.add_zero] at h0
          have hok' : ∀ j, j < n → env.blue_ok (i + 1 + j) = true ∧
              env.red_ok (i + 1 + j) = true := by
            intro j hj
            have := hok (j + 1) (by omega)
            rwa [show i + (j + 1) = i + 1 + j by omega] at this
          have hfault' : env.blue_ok (i + 1 + n) = false ∨
              env.red_ok (i + 1 + n) = false := by
            rwa [show i + 1 + n = i + (n + 1) by omega]
          have hrec := ih fuel (i + 1) (env.stepState i gs) (by omega) hok' hfault'
          rw [show i + 1 + n = i + (n + 1) by omega] at hrec
          unfold runGameLoop
          simp [h0.1, h0.2, hrec]

/-- The empty grid used for concrete match-driver runs. -/
def emptyKMap : KMap := ⟨0, 0, []⟩

/-- A minimal world state for concrete match-driver runs. -/
def gs0test : GState :=
  { turn := 0, bots := [], red_money := 0, blue_money := 0,
    orders_red := [], orders_blue := [], red_map := emptyKMap,
    blue_map := emptyKMap, switch_turn := 250, switch_duration := 100,
    switched_red := false, switched_blue := false }

/-- A one-turn match in which both callbacks succeed and the tick/agents
leave RED with strictly more money than BLUE. -/
def c2Env : MatchEnv :=
  { turn_limit := 1
    blue_ok := fun _ => true
    red_ok := fun _ => true
    stepState := fun _ gs => { gs with red_money := 5, blue_money := 3 } }

/-- A one-turn match in which the blue callback faults on turn 0 and the red
callback completes normally. -/
def c3Env : MatchEnv :=
  { turn_limit := 1
    blue_ok := fun _ => false
    red_ok := fun _ => true
    stepState := fun _ gs => gs }

/-! ## Claim theorems -/

/-- **C7**: for every gateway method and every input, the call returns a
value (boolean, observation record, or `None`) and no exception propagates
across the gateway boundary: `runCall` always yields `.ok`. -/
theorem gateway_no_exception (rc : RC) (gs : GState) (c : GwCall) :
    ∃ out, runCall rc gs c = .ok out := by
  cases c with
  | act bot_id ac =>
      obtain ⟨r, hr⟩ := runAct_ok rc gs bot_id ac
      simp [runCall, hr, Except.map]
  | move bot_id dx dy =>
      obtain ⟨r, hr⟩ := rcMove_ok rc gs bot_id dx dy
      simp [runCall, hr, Except.map]
  | can_buy bot_id item tx ty =>
      obtain ⟨r, hr⟩ := rcCanBuy_ok rc gs bot_id item tx ty
      simp [runCall, hr, Except.map]
  | can_start_cook bot_id tx ty =>
      obtain ⟨r, hr⟩ := rcCanStartCook_ok rc gs bot_id tx ty
      simp [runCall, hr, Except.map]
  | can_submit bot_id tx ty =>
      obtain ⟨r, hr⟩ := rcCanSubmit_ok rc gs bot_id tx ty
      simp [runCall, hr, Except.map]
  | switch_maps =>
      obtain ⟨r, hr⟩ := rcSwitchMaps_ok rc gs
      simp [runCall, hr, Except.map]
  | _ => exact ⟨_, rfl⟩

/-- **C3**: for every match and every turn reached with both sides
responsive so far, a turn on which exactly one team's callback faults (an
uncaught exception or a timeout, `call_player` returning false) ends the
match immediately with the responsive team returned as the winner, and a
turn on which both fault ends it with no winner. -/
theorem agent_fault_immediate_forfeit (env : MatchEnv) (gs0 : GState) (i : Nat)
    (hlim : i < env.turn_limit)
    (hok : ∀ j, j < i → env.blue_ok j = true ∧ env.red_ok j = true) :
    (env.blue_ok i = false → env.red_ok i = true →
      (runGame env false false gs0).1 =
        { retVal := some .RED, replay_winner := some (some .RED) }) ∧
    (env.red_ok i = false → env.blue_ok i = true →
      (runGame env false false gs0).1 =
        { retVal := some .BLUE, replay_winner := some (some .BLUE) }) ∧
    (env.blue_ok i = false → env.red_ok i = false →
      (runGame env false false gs0).1 =
        { retVal := none, replay_winner := some none }) := by
  refine ⟨fun hB hR => ?_, fun hR hB => ?_, fun hB hR => ?_⟩
  all_goals
    have hmain := runGameLoop_fault env i env.turn_limit 0 gs0 hlim
      (by intro j hj; simpa using hok j hj) (by simp [hB, hR])
    simp only [Nat.zero_add] at hmain
    simp [runGame, hmain, hB, hR]

/-- Witness for C3 at a concrete match: blue faults on turn 0, red is
responsive, and the match is resolved for RED that turn. -/
theorem agent_fault_immediate_forfeit_witness :
    (runGame c3Env false false gs0test).1 =
      { retVal := some Team.RED, replay_winner := some (some Team.RED) } :=
  (agent_fault_immediate_forfeit c3Env gs0test 0 (by decide)
    (by intro j hj; exact absurd hj (Nat.not_lt_zero j))).1 rfl rfl

/-- **C2** (code bug): when the turn limit is reached with both teams
responsive, `run_game` *computes* the money-comparison winner and exports it
to the replay, but then executes `return None` (line 249) instead of
returning the winner — contradicting its own docstring ("run the game and
return a winner") and the forfeit branches, which do return the winner.
This theorem evaluates the code at a failing input: RED ends with strictly
more money, the exported replay names RED the winner, yet the return value
is `None`. -/
theorem run_game_turn_limit_returns_none :
    (runGame c2Env false false gs0test).1.replay_winner = some (some Team.RED) ∧
    (runGame c2Env false false gs0test).2.get_team_money Team.RED >
      (runGame c2Env false false gs0test).2.get_team_money Team.BLUE ∧
    (runGame c2Env false false gs0test).1.retVal = none := by
  decide

/-! ## Switch lemmas and state-monotonicity of the gateway (towards C9) -/

theorem except_map_eq_ok {α β ε : Type} (f : α → β) (x : Except ε α) (b : β)
    (h : x.map f = .ok b) : ∃ a, x = .ok a ∧ f a = b := by
  cases x with
  | error e => simp [Except.map] at h
  | ok a => exact ⟨a, rfl, by simpa [Except.map] using h⟩

theorem runAct_meta {rc : RC} {gs : GState} {bot_id : Nat} {c : ActCall}
    {r : Bool} {rc1 : RC} {gs1 : GState}
    (h : runAct rc gs bot_id c = .ok (r, rc1, gs1)) : PreservesMeta gs gs1 := by
  unfold runAct at h
  repeat' split at h
  all_goals first
    | (simp only [Except.ok.injEq, Prod.mk.injEq] at h
       obtain ⟨h1, h2, h3⟩ := h
       subst h3
       simp)
    | (obtain ⟨⟨rb, rgs⟩, hcore, hfb⟩ := except_map_eq_ok _ _ _ h
       simp only [Prod.mk.injEq] at hfb
       obtain ⟨h1, h2, h3⟩ := hfb
       subst h3
       exact actCore_meta hcore)

theorem rcMove_meta {rc : RC} {gs : GState} {bot_id : Nat} {dx dy : Int}
    {r : Bool} {rc1 : RC} {gs1 : GState}
    (h : rcMove rc gs bot_id dx dy = .ok (r, rc1, gs1)) : PreservesMeta gs gs1 := by
  unfold rcMove at h
  repeat' split at h
  all_goals
    simp only [Except.ok.injEq, Prod.mk.injEq] at h
    obtain ⟨h1, h2, h3⟩ := h
    subst h3
    simp [PreservesMeta]

theorem request_switch_switched_mono (gs : GState) (t t' : Team)
    (h : gs.switched_of t' = true) :
    ((gs.request_switch t).2).switched_of t' = true := by
  unfold GState.request_switch
  split
  · exact h
  · cases t <;> cases t' <;> simp_all [GState.switched_of]

theorem request_switch_sets_flag (gs : GState) (t : Team)
    (h : (gs.request_switch t).1 = true) :
    ((gs.request_switch t).2).switched_of t = true := by
  unfold GState.request_switch at h ⊢
  split at h
  · exact absurd h (by simp)
  · next hcond =>
      rw [if_neg hcond]
      cases t <;> simp [GState.switched_of]

theorem request_switch_of_switched (gs : GState) (t : Team)
    (h : gs.switched_of t = true) : gs.request_switch t = (false, gs) := by
  unfold GState.request_switch
  rw [if_pos (by simp [h])]

theorem rcSwitchMaps_switched_mono {rc : RC} {gs : GState} {res : Bool}
    {rc1 : RC} {gs1 : GState} (t : Team)
    (h : rcSwitchMaps rc gs = .ok (res, rc1, gs1))
    (hsw : gs.switched_of t = true) : gs1.switched_of t = true := by
  unfold rcSwitchMaps at h
  split at h
  · obtain ⟨h1, h2, h3⟩ : res = false ∧ rc = rc1 ∧ gs = gs1 := by simpa using h
    exact h3 ▸ hsw
  · obtain ⟨h1, h2, h3⟩ :
        (gs.request_switch rc.team).1 = res ∧ rc = rc1 ∧
          (gs.request_switch rc.team).2 = gs1 := by simpa using h
    exact h3 ▸ request_switch_switched_mono gs rc.team t hsw

/-- No gateway call ever clears a team's switched flag. -/
theorem runCall_switched_mono {rc : RC} {gs : GState} {c : GwCall} {out : GwRet}
    {rc1 : RC} {gs1 : GState} (t : Team)
    (h : runCall rc gs c = .ok (out, rc1, gs1))
    (hsw : gs.switched_of t = true) : gs1.switched_of t = true := by
  cases c with
  | act bot_id ac =>
      obtain ⟨⟨rb, rc2, rgs⟩, hact, hfb⟩ := except_map_eq_ok _ _ _ h
      simp only [Prod.mk.injEq] at hfb
      obtain ⟨h1, h2, h3⟩ := hfb
      subst h3
      rw [(runAct_meta hact).switched_of t]
      exact hsw
  | move bot_id dx dy =>
      obtain ⟨⟨rb, rc2, rgs⟩, hmv, hfb⟩ := except_map_eq_ok _ _ _ h
      simp only [Prod.mk.injEq] at hfb
      obtain ⟨h1, h2, h3⟩ := hfb
      subst h3
      rw [(rcMove_meta hmv).switched_of t]
      exact hsw
  | can_buy bot_id item tx ty =>
      obtain ⟨b0, _, hfb⟩ := except_map_eq_ok _ _ _ h
      simp only [Prod.mk.injEq] at hfb
      exact hfb.2.2 ▸ hsw
  | can_start_cook bot_id tx ty =>
      obtain ⟨b0, _, hfb⟩ := except_map_eq_ok _ _ _ h
      simp only [Prod.mk.injEq] at hfb
      exact hfb.2.2 ▸ hsw
  | can_submit bot_id tx ty =>
      obtain ⟨b0, _, hfb⟩ := except_map_eq_ok _ _ _ h
      simp only [Prod.mk.injEq] at hfb
      exact hfb.2.2 ▸ hsw
  | switch_maps =>
      obtain ⟨⟨rb, rc2, rgs⟩, hsm, hfb⟩ := except_map_eq_ok _ _ _ h
      simp only [Prod.mk.injEq] at hfb
      obtain ⟨h1, h2, h3⟩ := hfb
      subst h3
      exact rcSwitchMaps_switched_mono t hsm hsw
  | can_move bot_id dx dy =>
      obtain ⟨h1, h2, h3⟩ : _ ∧ rc = rc1 ∧ gs = gs1 := by simpa [runCall] using h
      exact h3 ▸ hsw
  | can_switch_maps =>
      obtain ⟨h1, h2, h3⟩ : _ ∧ rc = rc1 ∧ gs = gs1 := by simpa [runCall] using h
      exact h3 ▸ hsw
  | get_switch_info =>
      obtain ⟨h1, h2, h3⟩ : _ ∧ rc = rc1 ∧ gs = gs1 := by simpa [runCall] using h
      exact h3 ▸ hsw
  | get_map t0 =>
      obtain ⟨h1, h2, h3⟩ : _ ∧ rc = rc1 ∧ gs = gs1 := by simpa [runCall] using h
      exact h3 ▸ hsw
  | get_tile t0 x y =>
      obtain ⟨h1, h2, h3⟩ : _ ∧ rc = rc1 ∧ gs = gs1 := by simpa [runCall] using h
      exact h3 ▸ hsw
  | get_orders t0 =>
      obtain ⟨h1, h2, h3⟩ : _ ∧ rc = rc1 ∧ gs = gs1 := by simpa [runCall] using h
      exact h3 ▸ hsw
  | get_bot_state bot_id =>
      obtain ⟨h1, h2, h3⟩ : _ ∧ rc = rc1 ∧ gs = gs1 := by simpa [runCall] using h
      exact h3 ▸ hsw
  | get_team_bot_ids t0 =>
      obtain ⟨h1, h2, h3⟩ : _ ∧ rc = rc1 ∧ gs = gs1 := by simpa [runCall] using h
      exact h3 ▸ hsw
  | get_team_money t0 =>
      obtain ⟨h1, h2, h3⟩ : _ ∧ rc = rc1 ∧ gs = gs1 := by simpa [runCall] using h
      exact h3 ▸ hsw
  | get_turn =>
      obtain ⟨h1, h2, h3⟩ : _ ∧ rc = rc1 ∧ gs = gs1 := by simpa [runCall] using h
      exact h3 ▸ hsw

/-- The controller used for concrete gateway runs. -/
def wrc : RC := ⟨Team.RED, 0, [], []⟩

/-- A world state sitting inside the switch window. -/
def wgs : GState := { gs0test with turn := 250 }

/-- `wgs` after RED's successful switch. -/
def wgs1 : GState := { wgs with switched_red := true }

/-- **C9**: `switch_maps` succeeds only inside the window
[switch_turn, switch_turn + switch_duration - 1] and only when the team has
not yet switched; success sets the team's switched flag (which no gateway
call ever clears, so a switch succeeds at most once per match); and a
`switch_maps` call, successful or not, leaves the controller's budget
bookkeeping exactly unchanged. -/
theorem switch_maps_once_in_window_no_budget :
    (∀ (rc : RC) (gs : GState) (res : Bool) (rc1 : RC) (gs1 : GState),
      rcSwitchMaps rc gs = .ok (res, rc1, gs1) →
        rc1 = rc ∧
        (res = true → (rcGetSwitchInfo rc gs).window_active = true ∧
          gs.switched_of rc.team = false ∧ gs1.switched_of rc.team = true) ∧
        (gs.switched_of rc.team = true → res = false ∧ gs1 = gs) ∧
        ((rcGetSwitchInfo rc gs).window_active = false → res = false ∧ gs1 = gs)) ∧
    (∀ (rc : RC) (gs : GState) (c : GwCall) (out : GwRet) (rc1 : RC) (gs1 : GState)
      (t : Team), runCall rc gs c = .ok (out, rc1, gs1) →
        gs.switched_of t = true → gs1.switched_of t = true) := by
  constructor
  · intro rc gs res rc1 gs1 h
    unfold rcSwitchMaps at h
    split at h
    · obtain ⟨h1, h2, h3⟩ : false = res ∧ rc = rc1 ∧ gs = gs1 := by simpa using h
      subst h1
      subst h2
      subst h3
      exact ⟨rfl, by simp, fun _ => ⟨rfl, rfl⟩, fun _ => ⟨rfl, rfl⟩⟩
    · next hcond =>
        have hcan : rcCanSwitchMaps rc gs = true := by
          revert hcond
          cases rcCanSwitchMaps rc gs <;> simp
        have hwin : (rcGetSwitchInfo rc gs).window_active = true ∧
            gs.switched_of rc.team = false := by
          unfold rcCanSwitchMaps at hcan
          rw [Bool.and_eq_true] at hcan
          refine ⟨hcan.1, ?_⟩
          have h2 := hcan.2
          simpa [rcGetSwitchInfo] using h2
        obtain ⟨h1, h2, h3⟩ : (gs.request_switch rc.team).1 = res ∧ rc = rc1 ∧
            (gs.request_switch rc.team).2 = gs1 := by simpa using h
        subst h2
        refine ⟨rfl, fun hres => ⟨hwin.1, hwin.2, ?_⟩, fun hsw => ?_, fun hw => ?_⟩
        · exact h3 ▸ request_switch_sets_flag gs rc.team (h1.trans hres)
        · exact absurd hsw (by simp [hwin.2])
        · exact absurd hw (by simp [hwin.1])
  · exact fun rc gs c out rc1 gs1 t h hsw => runCall_switched_mono t h hsw

/-- Witness for C9 at a concrete state: on turn 250, inside the default
window, RED's switch succeeds, the flag is set, and the controller state is
untouched. -/
theorem switch_maps_once_witness :
    wrc = wrc ∧ (rcGetSwitchInfo wrc wgs).window_active = true ∧
    wgs.switched_of Team.RED = false ∧ wgs1.switched_of Team.RED = true :=
  have h := switch_maps_once_in_window_no_budget.1 wrc wgs true wrc wgs1 (by rfl)
  ⟨h.1, (h.2.1 rfl).1, (h.2.1 rfl).2.1, (h.2.1 rfl).2.2⟩

/-! ## Buy lemmas (towards C5 and C10) -/

/-- The fresh item `__grant_buyable_to_bot` puts into the bot's hand. -/
def fresh_buyable_item : Buyable → Item
  | .food ft => .food (freshFood ft)
  | .shopItem .PLATE => .plate [] false
  | .shopItem .PAN => .pan none

theorem runAct_nonsubmit_eq (rc : RC) (gs : GState) (bot_id : Nat) (c : ActCall)
    (hns : c.isSubmitCall = false) :
    runAct rc gs bot_id c =
      match safe_get_bot rc.team gs bot_id with
      | none => .ok (false, rc, gs)
      | some b =>
          match consume_action rc gs bot_id with
          | (false, rc1) => .ok (false, rc1, gs)
          | (true, rc1) =>
              (actCore c gs rc.team bot_id b).map
                fun (rg : Bool × GState) => (rg.1, rc1, rg.2) := by
  unfold runAct
  rw [hns]
  rfl

theorem runAct_submit_eq (rc : RC) (gs : GState) (bot_id : Nat) (c : ActCall)
    (hns : c.isSubmitCall = true) :
    runAct rc gs bot_id c =
      match consume_action rc gs bot_id with
      | (false, rc1) => .ok (false, rc1, gs)
      | (true, rc1) =>
          match safe_get_bot rc.team gs bot_id with
          | none => .ok (false, rc1, gs)
          | some b =>
              (actCore c gs rc.team bot_id b).map
                fun (rg : Bool × GState) => (rg.1, rc1, rg.2) := by
  unfold runAct
  rw [hns]
  rfl

/-- The typed grant: for a `Buyable` (the declared union `FoodType |
ShopCosts`), granting to an empty-handed own bot always succeeds with the
fresh item. -/
theorem grant_eq (gs : GState) (team : Team) (bot_id : Nat) (item : Buyable) :
    grant_buyable_to_bot gs team bot_id item =
      match safe_get_bot team gs bot_id with
      | none => (false, gs)
      | some b =>
          if b.holding ≠ none then (false, gs)
          else (true, gs.updateBot bot_id
            fun b0 => { b0 with holding := some (fresh_buyable_item item) }) := by
  unfold grant_buyable_to_bot fresh_buyable_item
  cases safe_get_bot team gs bot_id with
  | none => rfl
  | some b =>
      simp only
      split
      · rcases item with ft | sc
        · rfl
        · cases sc <;> rfl
      · rcases item with ft | sc
        · rfl
        · cases sc <;> rfl

theorem grant_money (gs : GState) (team : Team) (bot_id : Nat) (item : Buyable)
    (t : Team) :
    (grant_buyable_to_bot gs team bot_id item).2.get_team_money t =
      gs.get_team_money t := by
  rw [grant_eq]
  cases safe_get_bot team gs bot_id with
  | none => rfl
  | some b =>
      simp only
      split
      · rfl
      · simp

/-- **C5**: `buy` debits the team's money only when the grant fully succeeds
(returns true and the bot ends holding the fresh item); every `buy` call
that returns false leaves every team's money unchanged net — in particular
the post-debit grant-failure branch refunds the debit. -/
theorem buy_debits_only_on_success :
    ∀ (rc : RC) (gs : GState) (bot_id : Nat) (item : Buyable) (tx ty : Option Int)
      (res : Bool) (rc1 : RC) (gs1 : GState),
      rcBuy rc gs bot_id item tx ty = .ok (res, rc1, gs1) →
      (res = true → ∃ b, safe_get_bot rc.team gs bot_id = some b ∧
        gs1.get_team_money rc.team = gs.get_team_money rc.team - item.buy_cost ∧
        safe_get_bot rc.team gs1 bot_id =
          some { b with holding := some (fresh_buyable_item item) }) ∧
      (res = false → ∀ t, gs1.get_team_money t = gs.get_team_money t) := by
  intro rc gs bot_id item tx ty res rc1 gs1 h
  unfold rcBuy at h
  rw [runAct_nonsubmit_eq rc gs bot_id (.buy item tx ty) rfl] at h
  cases hsb : safe_get_bot rc.team gs bot_id with
  | none =>
      rw [hsb] at h
      obtain ⟨h1, h2, h3⟩ : false = res ∧ rc = rc1 ∧ gs = gs1 := by simpa using h
      subst h1
      subst h3
      exact ⟨by simp, fun _ t => rfl⟩
  | some b =>
      rw [hsb] at h
      cases hca : consume_action rc gs bot_id with
      | mk ok1 rc2 =>
          rw [hca] at h
          cases ok1 with
          | false =>
              obtain ⟨h1, h2, h3⟩ : false = res ∧ rc2 = rc1 ∧ gs = gs1 := by simpa using h
              subst h1
              subst h3
              exact ⟨by simp, fun _ t => rfl⟩
          | true =>
              have hmap : (buyCore gs rc.team bot_id b item tx ty).map
                  (fun (rg : Bool × GState) => (rg.1, rc2, rg.2)) = .ok (res, rc1, gs1) := h
              obtain ⟨⟨rb, rgs⟩, hcore, hfb⟩ := except_map_eq_ok _ _ _ hmap
              simp only [Prod.mk.injEq] at hfb
              obtain ⟨hfb1, hfb2, hfb3⟩ := hfb
              subst hfb1
              subst hfb3
              unfold buyCore at hcore
              obtain ⟨o, ho⟩ := resolve_target_tile_ok rc.team gs bot_id tx ty
              rw [ho] at hcore
              repeat' split at hcore
              all_goals try (exact Except.noConfusion hcore)
              all_goals
                simp only [Except.ok.injEq, Prod.mk.injEq] at hcore
                obtain ⟨hc1, hc2⟩ := hcore
                subst hc2
                subst hc1
              -- failure branches: state is unchanged
              all_goals try exact ⟨by simp, fun _ t => rfl⟩
              -- success branch
              · rename_i hhold hmenu hmoney hgrant
                refine ⟨fun _ => ⟨b, rfl, ?_, ?_⟩, by simp⟩
                · simp only [grant_eq, safe_get_bot_add_team_money, hsb]
                  rw [if_neg hhold]
                  simp [add_team_money_get]
                  try omega
                · simp only [grant_eq, safe_get_bot_add_team_money, hsb]
                  rw [if_neg hhold]
                  simp only
                  rw [safe_get_bot_updateBot rc.team
                    (gs.add_team_money rc.team (-item.buy_cost)) bot_id bot_id
                    (fun b0 => { b0 with holding := some (fresh_buyable_item item) })
                    (fun _ => rfl) (fun _ => rfl)]
                  rw [safe_get_bot_add_team_money, hsb]
                  simp [(safe_get_bot_spec hsb).2.2]
              -- grant-failure branch: the debit is refunded
              · refine ⟨by simp, fun _ t => ?_⟩
                simp only [add_team_money_get, grant_money]
                split <;> omega

/-- **C10**: `can_buy` is a sufficient precondition for `buy`: whenever
`can_buy(bot_id, item, x, y)` returns true and the bot still has its action
budget for the turn, `buy(bot_id, item, x, y)` in the same state returns
true. -/
theorem can_buy_implies_buy :
    ∀ (rc : RC) (gs : GState) (bot_id : Nat) (item : Buyable) (tx ty : Option Int),
      rcCanBuy rc gs bot_id item tx ty = .ok true →
      dget (ensure_turn rc gs).actions_left bot_id ≠ 0 →
      ∃ rc1 gs1, rcBuy rc gs bot_id item tx ty = .ok (true, rc1, gs1) := by
  intro rc gs bot_id item tx ty hcan hbud
  unfold rcCanBuy at hcan
  cases hsb : safe_get_bot rc.team gs bot_id with
  | none => rw [hsb] at hcan; exact absurd hcan (by simp)
  | some b =>
      rw [hsb] at hcan
      obtain ⟨o, ho⟩ := resolve_target_tile_ok rc.team gs bot_id tx ty
      rw [ho] at hcan
      repeat' split at hcan
      all_goals try (exact Except.noConfusion hcan)
      all_goals injection hcan with hcan
      all_goals try (exact absurd hcan Bool.false_ne_true)
      rename_i xb bv hbv xe tx2 ty2 tile2 menu heqo hhold hmenu
      injection hbv with hbv
      subst hbv
      injection heqo with heqo
      rw [heqo] at ho
      have hm := of_decide_eq_true hcan
      have hg : (grant_buyable_to_bot (gs.add_team_money rc.team (-item.buy_cost))
          rc.team bot_id item).1 = true := by
        rw [grant_eq]
        rw [safe_get_bot_add_team_money, hsb]
        simp only
        rw [if_neg hhold]
      have hbc : buyCore gs rc.team bot_id b item tx ty =
          .ok (true, (grant_buyable_to_bot (gs.add_team_money rc.team (-item.buy_cost))
            rc.team bot_id item).2) := by
        unfold buyCore
        rw [ho]
        simp only
        rw [if_neg hhold]
        rw [if_neg hmenu]
        rw [if_neg (show ¬(gs.get_team_money rc.team < item.buy_cost) by omega)]
        rw [if_pos hg]
      unfold rcBuy
      rw [runAct_nonsubmit_eq rc gs bot_id (.buy item tx ty) rfl, hsb]
      cases hca : consume_action rc gs bot_id with
      | mk ok1 rc2 =>
          have hok1 : ok1 = true := by
            have h1 : ok1 = decide (dget (ensure_turn rc gs).actions_left bot_id ≠ 0) := by
              rw [← consume_action_fst, hca]
            rw [h1]
            simpa using hbud
          subst hok1
          refine ⟨rc2, (grant_buyable_to_bot (gs.add_team_money rc.team (-item.buy_cost))
            rc.team bot_id item).2, ?_⟩
          show Except.map (fun (rg : Bool × GState) => (rg.1, rc2, rg.2))
              (buyCore gs rc.team bot_id b item tx ty) = _
          rw [hbc]
          rfl

/-- A single RED bot standing at the origin, empty-handed. -/
def c5bot : Bot := ⟨1, .RED, .RED, 0, 0, none⟩

/-- A 1×2 kitchen: floor under the bot, a shop selling plates above it. -/
def c5map : KMap := ⟨1, 2, [[Tile.floor, Tile.shop [Buyable.shopItem ShopCosts.PLATE]]]⟩

/-- The world for the concrete buy runs. -/
def c5gs : GState :=
  { turn := 0, bots := [c5bot], red_money := 10, blue_money := 0,
    orders_red := [], orders_blue := [], red_map := c5map, blue_map := c5map,
    switch_turn := 250, switch_duration := 100,
    switched_red := false, switched_blue := false }

/-- A RED controller with a full budget for bot 1. -/
def c5rc : RC := ⟨.RED, 0, [(1, 1)], [(1, 1)]⟩

/-- Witness for C5 at the concrete shop scenario: buying a plate debits its
cost (10 → 8) and leaves the bot holding a fresh clean plate. -/
theorem buy_debits_only_on_success_witness :
    ∃ b, safe_get_bot c5rc.team c5gs 1 = some b ∧
      ({ c5gs with
          red_money := 8,
          bots := [{ c5bot with holding := some (.plate [] false) }] } : GState).get_team_money c5rc.team =
        c5gs.get_team_money c5rc.team - (Buyable.shopItem ShopCosts.PLATE).buy_cost ∧
      safe_get_bot c5rc.team
          { c5gs with
            red_money := 8,
            bots := [{ c5bot with holding := some (.plate [] false) }] } 1 =
        some { b with holding := some (fresh_buyable_item (.shopItem ShopCosts.PLATE)) } :=
  (buy_debits_only_on_success c5rc c5gs 1 (.shopItem ShopCosts.PLATE) (some 0) (some 1)
    true ⟨.RED, 0, [(1, 1)], [(1, 0)]⟩
    { c5gs with
      red_money := 8,
      bots := [{ c5bot with holding := some (.plate [] false) }] }
    (by rfl)).1 rfl

/-- Witness for C10 at the concrete shop scenario. -/
theorem can_buy_implies_buy_witness :
    ∃ rc1 gs1, rcBuy c5rc c5gs 1 (.shopItem ShopCosts.PLATE) (some 0) (some 1) =
      .ok (true, rc1, gs1) :=
  can_buy_implies_buy c5rc c5gs 1 (.shopItem ShopCosts.PLATE) (some 0) (some 1)
    (by rfl) (by decide)

/-! ## Grid-write lemmas (towards C8 and C1) -/

theorem set_getD_self {α : Type} (l : List α) (n : Nat) (d : α)
    (h : n < l.length) : l.set n (l.getD n d) = l := by
  induction l generalizing n with
  | nil => simp at h
  | cons hd tl ih =>
      cases n with
      | zero => simp
      | succ n =>
          simp only [List.length_cons] at h
          simp only [List.getD_cons_succ, List.set_cons_succ, List.cons.injEq, true_and]
          exact ih n (by omega)

theorem set_getD_get {α : Type} (l : List α) (n : Nat) (v d : α)
    (h : n < l.length) : (l.set n v).getD n d = v := by
  induction l generalizing n with
  | nil => simp at h
  | cons hd tl ih =>
      cases n with
      | zero => simp
      | succ n =>
          simp only [List.length_cons] at h
          simp only [List.set_cons_succ, List.getD_cons_succ]
          exact ih n (by omega)

/-- Well-formedness of a grid: the nested tile lists really are
`width × height`. -/
def KMap.WF (m : KMap) : Prop :=
  m.tiles.length = m.width ∧ ∀ col ∈ m.tiles, col.length = m.height

theorem KMap.in_bounds_dims {m : KMap} {x y : Int} (hwf : m.WF)
    (hin : m.in_bounds x y = true) :
    x.toNat < m.tiles.length ∧ y.toNat < (m.tiles.getD x.toNat []).length := by
  unfold KMap.in_bounds at hin
  simp only [Bool.and_eq_true, decide_eq_true_eq] at hin
  obtain ⟨⟨⟨h1, h2⟩, h3⟩, h4⟩ := hin
  have hx : x.toNat < m.tiles.length := by rw [hwf.1]; omega
  refine ⟨hx, ?_⟩
  have hmem : m.tiles.getD x.toNat [] ∈ m.tiles := by
    rw [List.getD_eq_getElem?_getD, List.getElem?_eq_getElem hx]
    exact List.getElem_mem hx
  rw [hwf.2 _ hmem]
  omega

theorem KMap.tileAt_setTile_self (m : KMap) (x y : Int) (hwf : m.WF)
    (hin : m.in_bounds x y = true) : m.setTile x y (m.tileAt x y) = m := by
  obtain ⟨hx, hy⟩ := KMap.in_bounds_dims hwf hin
  unfold KMap.setTile KMap.tileAt
  rw [set_getD_self _ _ _ hy, set_getD_self _ _ _ hx]

theorem KMap.tileAt_setTile_eq (m : KMap) (x y : Int) (t : Tile) (hwf : m.WF)
    (hin : m.in_bounds x y = true) : (m.setTile x y t).tileAt x y = t := by
  obtain ⟨hx, hy⟩ := KMap.in_bounds_dims hwf hin
  unfold KMap.setTile KMap.tileAt
  simp only
  rw [set_getD_get _ _ _ _ hx, set_getD_get _ _ _ _ hy]

@[simp] theorem get_map_set_tile_self (gs : GState) (tm : Team) (x y : Int)
    (t : Tile) : (gs.set_tile tm x y t).get_map tm = (gs.get_map tm).setTile x y t := by
  cases tm <;> rfl

theorem gs_set_tile_self (gs : GState) (tm : Team) (x y : Int)
    (hwf : (gs.get_map tm).WF) (hin : (gs.get_map tm).in_bounds x y = true) :
    gs.set_tile tm x y ((gs.get_map tm).tileAt x y) = gs := by
  cases tm with
  | RED =>
      show ({ gs with
        red_map := gs.red_map.setTile x y ((gs.get_map Team.RED).tileAt x y) } : GState) = gs
      rw [show gs.get_map Team.RED = gs.red_map from rfl] at hwf hin ⊢
      rw [KMap.tileAt_setTile_self _ _ _ hwf hin]
  | BLUE =>
      show ({ gs with
        blue_map := gs.blue_map.setTile x y ((gs.get_map Team.BLUE).tileAt x y) } : GState) = gs
      rw [show gs.get_map Team.BLUE = gs.blue_map from rfl] at hwf hin ⊢
      rw [KMap.tileAt_setTile_self _ _ _ hwf hin]

/-- `__resolve_target_tile` at an explicit adjacent in-bounds target resolves
to that tile. -/
theorem resolve_target_tile_eq (team : Team) (gs : GState) (bot_id : Nat)
    (b : Bot) (tx ty : Int) (hsb : safe_get_bot team gs bot_id = some b)
    (hcheb : chebyshev_dist b.x b.y tx ty ≤ 1)
    (hin : (gs.get_map b.map_team).in_bounds tx ty = true) :
    resolve_target_tile team gs bot_id (some tx) (some ty) =
      .ok (some (tx, ty, (gs.get_map b.map_team).tileAt tx ty)) := by
  unfold resolve_target_tile
  rw [hsb]
  simp only [Option.getD_some]
  rw [if_neg (by omega)]
  rw [if_neg (by simp [hin])]
  unfold GState.get_tileE
  rw [if_pos hin]

/-- **C8**: placing onto a non-empty Box succeeds (count incremented, hand
cleared) exactly when the held item's structural signature equals the stored
prototype's signature; on a signature mismatch the call returns false and
the world is unchanged.  In particular a Food differing only in chopped flag
or cooked stage has a different signature and is rejected, so Box stacks
stay signature-homogeneous. -/
theorem box_accepts_only_matching_signature :
    ∀ (rc : RC) (gs : GState) (bot_id : Nat) (b : Bot) (held proto : Item)
      (count : Nat) (tx ty : Int) (res : Bool) (rc1 : RC) (gs1 : GState),
      safe_get_bot rc.team gs bot_id = some b →
      dget (ensure_turn rc gs).actions_left bot_id ≠ 0 →
      b.holding = some held →
      chebyshev_dist b.x b.y tx ty ≤ 1 →
      (gs.get_map b.map_team).WF →
      (gs.get_map b.map_team).in_bounds tx ty = true →
      (gs.get_map b.map_team).tileAt tx ty = .box (some proto) count →
      count ≠ 0 →
      rcPlace rc gs bot_id (some tx) (some ty) = .ok (res, rc1, gs1) →
      (res = true ↔ item_signature proto = item_signature held) ∧
      (res = true →
        (gs1.get_map b.map_team).tileAt tx ty = .box (some proto) (count + 1) ∧
        safe_get_bot rc.team gs1 bot_id = some { b with holding := none }) ∧
      (res = false → gs1 = gs) := by
  intro rc gs bot_id b held proto count tx ty res rc1 gs1 hsb hbud hold hcheb hwf hin
    htile hcount hrun
  have hres := resolve_target_tile_eq rc.team gs bot_id b tx ty hsb hcheb hin
  rw [htile] at hres
  have henf : (Tile.box (some proto) count).enforce_invar = Tile.box (some proto) count := by
    simp [Tile.enforce_invar, hcount]
  unfold rcPlace at hrun
  rw [runAct_nonsubmit_eq rc gs bot_id (.place (some tx) (some ty)) rfl, hsb] at hrun
  cases hca : consume_action rc gs bot_id with
  | mk ok1 rc2 =>
      have hok1 : ok1 = true := by
        have h1 : ok1 = decide (dget (ensure_turn rc gs).actions_left bot_id ≠ 0) := by
          rw [← consume_action_fst, hca]
        rw [h1]
        simpa using hbud
      subst hok1
      rw [hca] at hrun
      have hmap : (placeCore gs rc.team bot_id b (some tx) (some ty)).map
          (fun (rg : Bool × GState) => (rg.1, rc2, rg.2)) = .ok (res, rc1, gs1) := hrun
      by_cases hsig : item_signature proto = item_signature held
      · have hplace : placeCore gs rc.team bot_id b (some tx) (some ty) =
            .ok (true, (gs.set_tile b.map_team tx ty
              (.box (some proto) (count + 1))).updateBot bot_id
                fun b0 => { b0 with holding := none }) := by
          unfold placeCore
          simp only [hold, hres, henf]
          rw [if_neg (show ¬(count = 0 ∨ (some proto : Option Item) = none) by
            simp [hcount])]
          simp only [Option.getD_some]
          rw [if_neg (not_not_intro hsig)]
        rw [hplace] at hmap
        obtain ⟨h1, h2, h3⟩ : true = res ∧ rc2 = rc1 ∧
            (gs.set_tile b.map_team tx ty (.box (some proto) (count + 1))).updateBot
              bot_id (fun b0 => { b0 with holding := none }) = gs1 := by
          simpa [Except.map] using hmap
        subst h1
        subst h3
        refine ⟨by simp [hsig], fun _ => ⟨?_, ?_⟩, by simp⟩
        · rw [updateBot_get_map, get_map_set_tile_self]
          exact KMap.tileAt_setTile_eq _ _ _ _ hwf hin
        · rw [safe_get_bot_updateBot rc.team _ bot_id bot_id
            (fun b0 => { b0 with holding := none }) (fun _ => rfl) (fun _ => rfl)]
          rw [safe_get_bot_set_tile, hsb]
          simp [(safe_get_bot_spec hsb).2.2]
      · have hplace : placeCore gs rc.team bot_id b (some tx) (some ty) =
            .ok (false, gs.set_tile b.map_team tx ty (.box (some proto) count)) := by
          unfold placeCore
          simp only [hold, hres, henf]
          rw [if_neg (show ¬(count = 0 ∨ (some proto : Option Item) = none) by
            simp [hcount])]
          simp only [Option.getD_some]
          rw [if_pos hsig]
        rw [hplace] at hmap
        obtain ⟨h1, h2, h3⟩ : false = res ∧ rc2 = rc1 ∧
            gs.set_tile b.map_team tx ty (.box (some proto) count) = gs1 := by
          simpa [Except.map] using hmap
        subst h1
        refine ⟨by simp [hsig], by simp, fun _ => ?_⟩
        rw [← h3, ← htile]
        exact gs_set_tile_self gs b.map_team tx ty hwf hin

/-- Prototype stored in the concrete box: a raw unchopped egg. -/
def c8proto : Item := .food ⟨.EGG, false, 0⟩

/-- A bot holding an identically-shaped egg, next to the box. -/
def c8bot : Bot := ⟨1, .RED, .RED, 0, 0, some c8proto⟩

/-- 1×2 kitchen: floor under the bot, a box holding one egg above. -/
def c8map : KMap := ⟨1, 2, [[Tile.floor, Tile.box (some c8proto) 1]]⟩

/-- The world for the concrete box-place run. -/
def c8gs : GState :=
  { turn := 0, bots := [c8bot], red_money := 0, blue_money := 0,
    orders_red := [], orders_blue := [], red_map := c8map, blue_map := c8map,
    switch_turn := 250, switch_duration := 100,
    switched_red := false, switched_blue := false }

/-- `c8gs` after the successful stack: count 2, hand empty. -/
def c8gs1 : GState :=
  { c8gs with
    red_map := ⟨1, 2, [[Tile.floor, Tile.box (some c8proto) 2]]⟩,
    bots := [{ c8bot with holding := none }] }

/-- Witness for C8 at the concrete box: stacking a matching egg succeeds and
increments the count to 2. -/
theorem box_accepts_only_matching_signature_witness :
    (c8gs1.get_map Team.RED).tileAt 0 1 = Tile.box (some c8proto) 2 ∧
    item_signature c8proto = item_signature c8proto :=
  have h := box_accepts_only_matching_signature c5rc c8gs 1 c8bot c8proto c8proto 1 0 1
    true ⟨.RED, 0, [(1, 1)], [(1, 0)]⟩ c8gs1 rfl (by decide) rfl (by decide)
    ⟨rfl, fun col hc => by rw [List.mem_singleton.mp hc]; rfl⟩ rfl rfl (by decide) (by rfl)
  ⟨(h.2.1 rfl).1, h.1.mp rfl⟩

/-- The executable permutation check agrees with multiset equality of the
name lists. -/
theorem namesMatch_iff (a b : List String) :
    namesMatch a b = true ↔ (↑a : Multiset String) = ↑b := by
  unfold namesMatch
  rw [List.isPerm_iff, Multiset.coe_eq_coe]

/-- **C1**: with an adjacent Submit tile and a held item, `submit` succeeds
iff the item is a clean Plate whose food-name multiset exactly equals the
required multiset of some active order of the bot's team; on success the
team's money grows by that order's reward, the order is marked completed
(hence inactive), and the plate in hand becomes empty and dirty; on failure
the world state is unchanged (only the action budget was charged). -/
theorem submit_matches_active_order :
    ∀ (rc : RC) (gs : GState) (bot_id : Nat) (b : Bot) (itm : Item) (tx ty : Int)
      (res : Bool) (rc1 : RC) (gs1 : GState),
      safe_get_bot rc.team gs bot_id = some b →
      dget (ensure_turn rc gs).actions_left bot_id ≠ 0 →
      b.holding = some itm →
      chebyshev_dist b.x b.y tx ty ≤ 1 →
      (gs.get_map b.map_team).in_bounds tx ty = true →
      (gs.get_map b.map_team).tileAt tx ty = .submit →
      rcSubmit rc gs bot_id (some tx) (some ty) = .ok (res, rc1, gs1) →
      (res = true ↔ ∃ foods, itm = .plate foods false ∧
        ∃ o ∈ gs.orders_of b.team, o.is_active gs.turn = true ∧
          (↑(foods.map FoodItem.food_name) : Multiset String) =
            ↑(o.required.map FoodType.food_name)) ∧
      (res = true → ∃ foods, itm = .plate foods false ∧
        ∃ o ∈ gs.orders_of b.team, o.is_active gs.turn = true ∧
          (↑(foods.map FoodItem.food_name) : Multiset String) =
            ↑(o.required.map FoodType.food_name) ∧
          gs1.get_team_money b.team = gs.get_team_money b.team + o.reward ∧
          ({ o with completed_turn := some gs.turn } : KOrder) ∈ gs1.orders_of b.team ∧
          safe_get_bot rc.team gs1 bot_id =
            some { b with holding := some (.plate [] true) }) ∧
      (res = false → gs1 = gs) := by
  intro rc gs bot_id b itm tx ty res rc1 gs1 hsb hbud hold hcheb hin htile hrun
  have hres2 := resolve_target_tile_eq rc.team gs bot_id b tx ty hsb hcheb hin
  rw [htile] at hres2
  unfold rcSubmit at hrun
  rw [runAct_submit_eq rc gs bot_id (.submit (some tx) (some ty)) rfl] at hrun
  cases hca : consume_action rc gs bot_id with
  | mk ok1 rc2 =>
      have hok1 : ok1 = true := by
        have h1 : ok1 = decide (dget (ensure_turn rc gs).actions_left bot_id ≠ 0) := by
          rw [← consume_action_fst, hca]
        rw [h1]
        simpa using hbud
      subst hok1
      rw [hca, hsb] at hrun
      have hmap : (submitCore gs rc.team bot_id b (some tx) (some ty)).map
          (fun (rg : Bool × GState) => (rg.1, rc2, rg.2)) = .ok (res, rc1, gs1) := hrun
      rcases itm with f | ⟨foods, dirty⟩ | pf
      -- held item is a Food: submit fails, no state change
      case food =>
          have hsubc : submitCore gs rc.team bot_id b (some tx) (some ty) =
              .ok (false, gs) := by
            unfold submitCore
            simp only [hres2, hold]
          rw [hsubc] at hmap
          obtain ⟨h1, h2, h3⟩ : false = res ∧ rc2 = rc1 ∧ gs = gs1 := by
            simpa [Except.map] using hmap
          subst h1
          subst h3
          exact ⟨by simp, by simp, fun _ => rfl⟩
      -- held item is a Pan: submit fails, no state change
      case pan =>
          have hsubc : submitCore gs rc.team bot_id b (some tx) (some ty) =
              .ok (false, gs) := by
            unfold submitCore
            simp only [hres2, hold]
          rw [hsubc] at hmap
          obtain ⟨h1, h2, h3⟩ : false = res ∧ rc2 = rc1 ∧ gs = gs1 := by
            simpa [Except.map] using hmap
          subst h1
          subst h3
          exact ⟨by simp, by simp, fun _ => rfl⟩
      case plate =>
        cases dirty with
        | true =>
            -- dirty plate: submit fails, no state change
            have hsubc : submitCore gs rc.team bot_id b (some tx) (some ty) =
                .ok (false, gs) := by
              unfold submitCore
              simp only [hres2, hold]
            rw [hsubc] at hmap
            obtain ⟨h1, h2, h3⟩ : false = res ∧ rc2 = rc1 ∧ gs = gs1 := by
              simpa [Except.map] using hmap
            subst h1
            subst h3
            exact ⟨by simp, by simp, fun _ => rfl⟩
        | false =>
            have hsubc : submitCore gs rc.team bot_id b (some tx) (some ty) =
                .ok ((gs.submit_plate bot_id tx ty).1, (gs.submit_plate bot_id tx ty).2) := by
              unfold submitCore
              simp only [hres2, hold]
            have hsp : gs.submit_plate bot_id tx ty =
                (match matchAndComplete (gs.orders_of b.team) gs.turn
                    (foods.map FoodItem.food_name) with
                | none => (false, gs)
                | some (reward, orders') =>
                    (true,
                      ((gs.set_orders b.team orders').add_team_money b.team reward).updateBot
                        bot_id fun b0 => { b0 with holding := some (.plate [] true) })) := by
              unfold GState.submit_plate
              rw [(safe_get_bot_spec hsb).1]
              simp only [hold]
            cases hmc : matchAndComplete (gs.orders_of b.team) gs.turn
                (foods.map FoodItem.food_name) with
            | none =>
                rw [hmc] at hsp
                rw [hsubc, hsp] at hmap
                obtain ⟨h1, h2, h3⟩ : false = res ∧ rc2 = rc1 ∧ gs = gs1 := by
                  simpa [Except.map] using hmap
                subst h1
                subst h3
                rw [matchAndComplete_eq_none_iff] at hmc
                refine ⟨?_, by simp, fun _ => rfl⟩
                simp only [Bool.false_eq_true, false_iff]
                rintro ⟨foods2, heq, o, ho, hact, hperm⟩
                obtain rfl : foods2 = foods := by simpa using heq.symm
                exact hmc o ho ⟨hact, (namesMatch_iff _ _).mpr hperm⟩
            | some rl =>
                obtain ⟨reward, orders2⟩ := rl
                rw [hmc] at hsp
                rw [hsubc, hsp] at hmap
                obtain ⟨o, ho, hact, hperm, hrew, hcomp⟩ := matchAndComplete_some_spec hmc
                obtain ⟨h1, h2, h3⟩ : true = res ∧ rc2 = rc1 ∧
                    ((gs.set_orders b.team orders2).add_team_money b.team reward).updateBot
                      bot_id (fun b0 => { b0 with holding := some (.plate [] true) }) = gs1 := by
                  simpa [Except.map] using hmap
                subst h1
                subst h3
                have hperm2 := (namesMatch_iff _ _).mp hperm
                refine ⟨by simp only [true_iff]; exact ⟨foods, rfl, o, ho, hact, hperm2⟩,
                  fun _ => ⟨foods, rfl, o, ho, hact, hperm2, ?_, ?_, ?_⟩, by simp⟩
                · rw [updateBot_get_team_money, add_team_money_get]
                  simp [hrew]
                · rw [updateBot_orders_of, add_team_money_orders_of,
                    set_orders_orders_of_self]
                  exact hcomp
                · rw [safe_get_bot_updateBot rc.team _ bot_id bot_id
                    (fun b0 => { b0 with holding := some (.plate [] true) })
                    (fun _ => rfl) (fun _ => rfl)]
                  rw [safe_get_bot_add_team_money, safe_get_bot_set_orders, hsb]
                  simp [(safe_get_bot_spec hsb).2.2]

/-- A concrete active order asking for one EGG, reward 25. -/
def c1order : KOrder := ⟨1, [.EGG], 0, 10, 25, 5, none, none⟩

/-- A bot holding a clean plate with one raw egg, next to a Submit tile. -/
def c1bot : Bot := ⟨1, .RED, .RED, 0, 0, some (.plate [⟨.EGG, false, 0⟩] false)⟩

/-- 1×2 kitchen: floor under the bot, a Submit tile above. -/
def c1map : KMap := ⟨1, 2, [[Tile.floor, Tile.submit]]⟩

/-- The world for the concrete submit run. -/
def c1gs : GState :=
  { turn := 0, bots := [c1bot], red_money := 0, blue_money := 0,
    orders_red := [c1order], orders_blue := [], red_map := c1map, blue_map := c1map,
    switch_turn := 250, switch_duration := 100,
    switched_red := false, switched_blue := false }

/-- `c1gs` after the successful submission: order completed, reward paid,
plate empty and dirty. -/
def c1gs1 : GState :=
  { c1gs with
    orders_red := [{ c1order with completed_turn := some 0 }],
    red_money := 25,
    bots := [{ c1bot with holding := some (.plate [] true) }] }

/-- Witness for C1 at the concrete submission: the plate matches the active
EGG order, the reward is credited, the order completed, the plate emptied
and dirtied. -/
theorem submit_matches_active_order_witness :
    ∃ foods, (Item.plate [⟨FoodType.EGG, false, 0⟩] false : Item) = .plate foods false ∧
      ∃ o ∈ c1gs.orders_of c1bot.team, o.is_active c1gs.turn = true ∧
        (↑(foods.map FoodItem.food_name) : Multiset String) =
          ↑(o.required.map FoodType.food_name) ∧
        c1gs1.get_team_money c1bot.team = c1gs.get_team_money c1bot.team + o.reward ∧
        ({ o with completed_turn := some c1gs.turn } : KOrder) ∈ c1gs1.orders_of c1bot.team ∧
        safe_get_bot c5rc.team c1gs1 1 =
          some { c1bot with holding := some (.plate [] true) } :=
  (submit_matches_active_order c5rc c1gs 1 c1bot (.plate [⟨.EGG, false, 0⟩] false) 0 1
    true ⟨.RED, 0, [(1, 1)], [(1, 0)]⟩ c1gs1 rfl (by decide) rfl (by decide) rfl rfl
    (by rfl)).2.1 rfl

/-! ## Budget-discipline lemmas (towards C4) -/

/-- For a valid own-team bot, a `move` call always ends with the controller
state returned by `__consume_move`, and the world either unchanged or the
result of `move_bot`. -/
theorem rcMove_shape {rc : RC} {gs : GState} {bot_id : Nat} {dx dy : Int}
    {r1 : Bool} {rc1 : RC} {gs1 : GState} {b : Bot}
    (hsb : safe_get_bot rc.team gs bot_id = some b)
    (hm : rcMove rc gs bot_id dx dy = .ok (r1, rc1, gs1)) :
    rc1 = (consume_move rc gs bot_id).2 ∧
    (gs1 = gs ∨ gs1 = (gs.move_bot bot_id dx dy).2) := by
  unfold rcMove at hm
  rw [hsb] at hm
  cases hcm : consume_move rc gs bot_id with
  | mk ok1 rcc =>
      rw [hcm] at hm
      cases ok1
      · have hm2 : (Except.ok (false, rcc, gs) : Except PyErr (Bool × RC × GState)) =
            .ok (r1, rc1, gs1) := hm
        simp only [Except.ok.injEq, Prod.mk.injEq] at hm2
        obtain ⟨e1, e2, e3⟩ := hm2
        exact ⟨e2.symm, Or.inl e3.symm⟩
      · have hm2 :
            (if (decide (max dx.natAbs dy.natAbs > 1) ||
                (decide (dx = 0) && decide (dy = 0))) = true
              then (Except.ok (false, rcc, gs) : Except PyErr (Bool × RC × GState))
              else if (!can_move_internal gs b.map_team b.x b.y dx dy) = true
                then .ok (false, rcc, gs)
                else .ok (true, rcc, (gs.move_bot bot_id dx dy).2)) =
              .ok (r1, rc1, gs1) := hm
        split at hm2
        case isTrue =>
            simp only [Except.ok.injEq, Prod.mk.injEq] at hm2
            obtain ⟨e1, e2, e3⟩ := hm2
            exact ⟨e2.symm, Or.inl e3.symm⟩
        case isFalse =>
            split at hm2
            · simp only [Except.ok.injEq, Prod.mk.injEq] at hm2
              obtain ⟨e1, e2, e3⟩ := hm2
              exact ⟨e2.symm, Or.inl e3.symm⟩
            · simp only [Except.ok.injEq, Prod.mk.injEq] at hm2
              obtain ⟨e1, e2, e3⟩ := hm2
              exact ⟨e2.symm, Or.inr e3.symm⟩

/-- For a valid own-team bot, every action call ends with the controller
state returned by `__consume_action` — the budget charge happens before any
variant-specific check. -/
theorem runAct_rc_shape {rc : RC} {gs : GState} {bot_id : Nat} {c : ActCall}
    {r : Bool} {rc1 : RC} {gs1 : GState} {b : Bot}
    (hsb : safe_get_bot rc.team gs bot_id = some b)
    (h : runAct rc gs bot_id c = .ok (r, rc1, gs1)) :
    rc1 = (consume_action rc gs bot_id).2 := by
  unfold runAct at h
  split at h
  · cases hca : consume_action rc gs bot_id with
    | mk ok1 rcc =>
        rw [hca] at h
        cases ok1
        · obtain ⟨e1, e2, e3⟩ : false = r ∧ rcc = rc1 ∧ gs = gs1 := by simpa using h
          exact e2.symm
        · rw [hsb] at h
          obtain ⟨⟨rb, rgs⟩, hcore, hfb⟩ := except_map_eq_ok _ _ _ h
          obtain ⟨e1, e2, e3⟩ : rb = r ∧ rcc = rc1 ∧ rgs = gs1 := by simpa using hfb
          exact e2.symm
  · rw [hsb] at h
    cases hca : consume_action rc gs bot_id with
    | mk ok1 rcc =>
        rw [hca] at h
        cases ok1
        · obtain ⟨e1, e2, e3⟩ : false = r ∧ rcc = rc1 ∧ gs = gs1 := by simpa using h
          exact e2.symm
        · obtain ⟨⟨rb, rgs⟩, hcore, hfb⟩ := except_map_eq_ok _ _ _ h
          obtain ⟨e1, e2, e3⟩ : rb = r ∧ rcc = rc1 ∧ rgs = gs1 := by simpa using hfb
          exact e2.symm

/-- **C4**: per bot and per turn, (a) after any `move` call for a valid
own-team bot, a second `move` in the same turn returns false and changes
nothing; (b) every action call on a valid own-team bot charges the single
action-budget unit before variant preconditions — the entry drops to its
refreshed value minus one regardless of the action's outcome; (c) with an
unknown or wrong-team bot id (which never holds budget) and no turn change,
every action call and every move call returns false with both the
controller and the world left exactly unchanged. -/
theorem per_turn_budget_discipline :
    (∀ (rc : RC) (gs : GState) (bot_id : Nat) (dx dy dx2 dy2 : Int) (b : Bot)
      (r1 : Bool) (rc1 : RC) (gs1 : GState),
      safe_get_bot rc.team gs bot_id = some b →
      dget (ensure_turn rc gs).moves_left bot_id ≤ 1 →
      rcMove rc gs bot_id dx dy = .ok (r1, rc1, gs1) →
      rcMove rc1 gs1 bot_id dx2 dy2 = .ok (false, rc1, gs1)) ∧
    (∀ (rc : RC) (gs : GState) (bot_id : Nat) (c : ActCall) (b : Bot)
      (r : Bool) (rc1 : RC) (gs1 : GState),
      safe_get_bot rc.team gs bot_id = some b →
      runAct rc gs bot_id c = .ok (r, rc1, gs1) →
      dget rc1.actions_left bot_id =
        dget (ensure_turn rc gs).actions_left bot_id - 1) ∧
    (∀ (rc : RC) (gs : GState) (bot_id : Nat) (c : ActCall) (dx dy : Int),
      gs.turn = rc.last_seen_turn →
      safe_get_bot rc.team gs bot_id = none →
      dget rc.actions_left bot_id = 0 →
      runAct rc gs bot_id c = .ok (false, rc, gs) ∧
      rcMove rc gs bot_id dx dy = .ok (false, rc, gs)) := by
  refine ⟨?_, ?_, ?_⟩
  · intro rc gs bot_id dx dy dx2 dy2 b r1 rc1 gs1 hsb hbud hm
    obtain ⟨hrc1, hgs1⟩ := rcMove_shape hsb hm
    have hrc1moves : dget rc1.moves_left bot_id = 0 := by
      rw [hrc1, dget_consume_move]
      omega
    have hrc1seen : rc1.last_seen_turn = gs.turn := by
      rw [hrc1]
      exact consume_move_last_seen rc gs bot_id
    have hrc1team : rc1.team = rc.team := by
      rw [hrc1]
      exact consume_move_team rc gs bot_id
    have hgsturn : gs1.turn = gs.turn := by
      rcases hgs1 with rfl | rfl
      · rfl
      · exact move_bot_turn gs bot_id dx dy
    have hsb2 : ∃ b2, safe_get_bot rc1.team gs1 bot_id = some b2 := by
      rw [hrc1team]
      rcases hgs1 with rfl | rfl
      · exact ⟨b, hsb⟩
      · exact safe_get_bot_move_bot rc.team gs bot_id bot_id dx dy hsb
    obtain ⟨b2, hb2⟩ := hsb2
    have hens : ensure_turn rc1 gs1 = rc1 :=
      ensure_turn_same rc1 gs1 (by rw [hgsturn, hrc1seen])
    have hcons : consume_move rc1 gs1 bot_id = (false, rc1) := by
      rw [consume_move_false rc1 gs1 bot_id (by rw [hens]; exact hrc1moves), hens]
    unfold rcMove
    rw [hb2, hcons]
  · intro rc gs bot_id c b r rc1 gs1 hsb h
    rw [runAct_rc_shape hsb h]
    exact dget_consume_action rc gs bot_id
  · intro rc gs bot_id c dx dy hsame hnone hzero
    have hens := ensure_turn_same rc gs hsame
    have hcons : consume_action rc gs bot_id = (false, rc) := by
      rw [consume_action_false rc gs bot_id (by rw [hens]; exact hzero), hens]
    constructor
    · unfold runAct
      split
      · rw [hcons]
      · rw [hnone]
    · unfold rcMove
      rw [hnone]

/-- The controller after the first (invalid, budget-consuming) move attempt. -/
def c4rc1 : RC := ⟨.RED, 0, [(1, 0)], [(1, 1)]⟩

/-- Witness for C4 at concrete states: (a) a second move this turn fails and
changes nothing; (b) a buy call drops bot 1's action entry from 1 to 0;
(c) an unknown bot id leaves the controller and world untouched. -/
theorem per_turn_budget_discipline_witness :
    rcMove c4rc1 c5gs 1 0 1 = .ok (false, c4rc1, c5gs) ∧
    dget (⟨.RED, 0, [(1, 1)], [(1, 0)]⟩ : RC).actions_left 1 =
      dget (ensure_turn c5rc c5gs).actions_left 1 - 1 ∧
    runAct c5rc c5gs 99 (.pickup none none) = .ok (false, c5rc, c5gs) := by
  refine ⟨?_, ?_, ?_⟩
  · exact per_turn_budget_discipline.1 c5rc c5gs 1 0 0 0 1 c5bot false c4rc1 c5gs
      rfl (by decide) (by rfl)
  · exact per_turn_budget_discipline.2.1 c5rc c5gs 1
      (.buy (.shopItem ShopCosts.PLATE) (some 0) (some 1)) c5bot true
      ⟨.RED, 0, [(1, 1)], [(1, 0)]⟩
      { c5gs with
        red_money := 8,
        bots := [{ c5bot with holding := some (.plate [] false) }] }
      rfl (by rfl)
  · exact (per_turn_budget_discipline.2.2 c5rc c5gs 99 (.pickup none none) 0 1
      rfl rfl rfl).1

/-! ## Deep-copy isolation lemmas (towards C6) -/

theorem set_getD_ne {α : Type} (l : List α) (i j : Nat) (v d : α) (hij : i ≠ j) :
    (l.set i v).getD j d = l.getD j d := by
  induction l generalizing i j with
  | nil => simp
  | cons hd tl ih =>
      cases i with
      | zero =>
          cases j with
          | zero => exact absurd rfl hij
          | succ j => simp
      | succ i =>
          cases j with
          | zero => simp
          | succ j =>
              simp only [List.set_cons_succ, List.getD_cons_succ]
              exact ih i j (fun he => hij (by omega))

theorem getD_append_left {α : Type} (l1 l2 : List α) (n : Nat) (d : α)
    (h : n < l1.length) : (l1 ++ l2).getD n d = l1.getD n d := by
  rw [List.getD_eq_getElem?_getD, List.getD_eq_getElem?_getD,
    List.getElem?_append_left h]

/-- Reads below the given bounds agree between the two heaps. -/
def PreservedBelow (tN iN : Nat) (h0 h1 : ObjHeap) : Prop :=
  (∀ a, a < tN → h1.readTileSlot a = h0.readTileSlot a) ∧
  (∀ a, a < iN → h1.readItem a = h0.readItem a)

theorem preservedBelow_refl (tN iN : Nat) (h : ObjHeap) : PreservedBelow tN iN h h :=
  ⟨fun _ _ => rfl, fun _ _ => rfl⟩

theorem preservedBelow_trans {tN iN : Nat} {h0 h1 h2 : ObjHeap}
    (a : PreservedBelow tN iN h0 h1) (b : PreservedBelow tN iN h1 h2) :
    PreservedBelow tN iN h0 h2 :=
  ⟨fun x hx => (b.1 x hx).trans (a.1 x hx), fun x hx => (b.2 x hx).trans (a.2 x hx)⟩

theorem preservedBelow_mono {tN iN tM iM : Nat} {h0 h1 : ObjHeap}
    (p : PreservedBelow tN iN h0 h1) (ht : tM ≤ tN) (hi : iM ≤ iN) :
    PreservedBelow tM iM h0 h1 :=
  ⟨fun a ha => p.1 a (by omega), fun a ha => p.2 a (by omega)⟩

/-- A mutation confined to fresh addresses never changes a read below the
original bounds. -/
theorem applyMut_preservedBelow (h : ObjHeap) (m : Mut) (tN iN : Nat)
    (hm : MutFresh tN iN m) : PreservedBelow tN iN h (h.applyMut m) := by
  cases m with
  | setSlot a0 v =>
      refine ⟨fun a ha => ?_, fun a _ => rfl⟩
      unfold ObjHeap.applyMut ObjHeap.readTileSlot
      exact set_getD_ne _ _ _ _ _ (by unfold MutFresh at hm; omega)
  | setItem a0 v =>
      refine ⟨fun a _ => rfl, fun a ha => ?_⟩
      unfold ObjHeap.applyMut ObjHeap.readItem
      exact set_getD_ne _ _ _ _ _ (by unfold MutFresh at hm; omega)

theorem applyMuts_preservedBelow (ms : List Mut) (tN iN : Nat) :
    ∀ h : ObjHeap, (∀ m ∈ ms, MutFresh tN iN m) →
      PreservedBelow tN iN h (h.applyMuts ms) := by
  induction ms with
  | nil => exact fun h _ => preservedBelow_refl tN iN h
  | cons m rest ih =>
      intro h hms
      unfold ObjHeap.applyMuts
      simp only [List.foldl_cons]
      exact preservedBelow_trans
        (applyMut_preservedBelow h m tN iN (hms m (by simp)))
        (ih (h.applyMut m) (fun m2 hm2 => hms m2 (by simp [hm2])))

/-- `copy.deepcopy` of one tile: the returned address is exactly the old
heap-top, the heaps only grow by suffixes. -/
theorem copyTile_spec (h : ObjHeap) (ta : Nat) :
    (h.copyTile ta).2 = h.tiles.length ∧
    ∃ st si, (h.copyTile ta).1.tiles = h.tiles ++ st ∧
      (h.copyTile ta).1.items = h.items ++ si := by
  unfold ObjHeap.copyTile
  cases h.readTileSlot ta with
  | none => exact ⟨rfl, [none], [], rfl, by simp⟩
  | some ia => exact ⟨rfl, [some h.items.length], [h.readItem ia], rfl, rfl⟩

theorem append_preservedBelow (h : ObjHeap) (st : List (Option Nat)) (si : List Item)
    {h1 : ObjHeap} (ht : h1.tiles = h.tiles ++ st) (hi : h1.items = h.items ++ si) :
    PreservedBelow h.tiles.length h.items.length h h1 := by
  constructor
  · intro a ha
    unfold ObjHeap.readTileSlot
    rw [ht, getD_append_left _ _ _ _ ha]
  · intro a ha
    unfold ObjHeap.readItem
    rw [hi, getD_append_left _ _ _ _ ha]

theorem copyTile_preservedBelow (h : ObjHeap) (ta : Nat) :
    PreservedBelow h.tiles.length h.items.length h (h.copyTile ta).1 := by
  obtain ⟨_, st, si, ht, hi⟩ := copyTile_spec h ta
  exact append_preservedBelow h st si ht hi

theorem copyTile_grows (h : ObjHeap) (ta : Nat) :
    h.tiles.length ≤ (h.copyTile ta).1.tiles.length ∧
    h.items.length ≤ (h.copyTile ta).1.items.length := by
  obtain ⟨_, st, si, ht, hi⟩ := copyTile_spec h ta
  rw [ht, hi]
  simp

/-- `copy.deepcopy` of a map grid: all returned tile addresses are fresh and
the original cells are untouched. -/
theorem copyGrid_spec (grid : List Nat) :
    ∀ h : ObjHeap,
      PreservedBelow h.tiles.length h.items.length h (h.copyGrid grid).1 ∧
      (∀ a ∈ (h.copyGrid grid).2, h.tiles.length ≤ a) ∧
      h.tiles.length ≤ (h.copyGrid grid).1.tiles.length ∧
      h.items.length ≤ (h.copyGrid grid).1.items.length := by
  induction grid with
  | nil =>
      intro h
      exact ⟨preservedBelow_refl _ _ h, by simp [ObjHeap.copyGrid], le_refl _, le_refl _⟩
  | cons a rest ih =>
      intro h
      unfold ObjHeap.copyGrid
      obtain ⟨hpres, hfresh, hgt, hgi⟩ := ih (h.copyTile a).1
      obtain ⟨haddr, st, si, ht, hi⟩ := copyTile_spec h a
      have hg1 := copyTile_grows h a
      refine ⟨preservedBelow_trans (copyTile_preservedBelow h a)
        (preservedBelow_mono hpres hg1.1 hg1.2), ?_,
        le_trans hg1.1 hgt, le_trans hg1.2 hgi⟩
      intro x hx
      simp only [List.mem_cons] at hx
      rcases hx with rfl | hx
      · rw [haddr]
      · exact le_trans hg1.1 (hfresh x hx)

/-- **C6**: the observation API's `copy.deepcopy` isolation, in an explicit
object-identity model: `get_tile` returns a freshly allocated tile object
(with a freshly allocated item object inside), `get_map` returns freshly
allocated tile objects for the whole grid, and any sequence of mutations
confined to addresses at or past the original heap bounds — in particular,
any mutation of the returned copies — leaves every read of a pre-existing
tile slot or item object unchanged. -/
theorem observation_deep_copy_isolated :
    (∀ (h : ObjHeap) (ta : Nat) (ms : List Mut),
      (∀ m ∈ ms, MutFresh h.tiles.length h.items.length m) →
      (h.copyTile ta).2 = h.tiles.length ∧
      (∀ a, a < h.tiles.length →
        (((h.copyTile ta).1).applyMuts ms).readTileSlot a = h.readTileSlot a) ∧
      (∀ a, a < h.items.length →
        (((h.copyTile ta).1).applyMuts ms).readItem a = h.readItem a)) ∧
    (∀ (h : ObjHeap) (grid : List Nat) (ms : List Mut),
      (∀ m ∈ ms, MutFresh h.tiles.length h.items.length m) →
      (∀ a ∈ (h.copyGrid grid).2, h.tiles.length ≤ a) ∧
      (∀ a, a < h.tiles.length →
        (((h.copyGrid grid).1).applyMuts ms).readTileSlot a = h.readTileSlot a) ∧
      (∀ a, a < h.items.length →
        (((h.copyGrid grid).1).applyMuts ms).readItem a = h.readItem a)) := by
  constructor
  · intro h ta ms hms
    have hp := preservedBelow_trans (copyTile_preservedBelow h ta)
      (applyMuts_preservedBelow ms h.tiles.length h.items.length (h.copyTile ta).1 hms)
    exact ⟨(copyTile_spec h ta).1, hp.1, hp.2⟩
  · intro h grid ms hms
    obtain ⟨hpres, hfresh, _, _⟩ := copyGrid_spec grid h
    have hp := preservedBelow_trans hpres
      (applyMuts_preservedBelow ms h.tiles.length h.items.length (h.copyGrid grid).1 hms)
    exact ⟨hfresh, hp.1, hp.2⟩

/-- Witness for C6 at a concrete heap: one authoritative tile holding one
item; the copy is fresh and overwriting both of its cells leaves the
original reads intact. -/
theorem observation_deep_copy_isolated_witness :
    ((⟨[some 0], [Item.pan none]⟩ : ObjHeap).copyTile 0).2 = 1 ∧
    (∀ a, a < 1 →
      ((((⟨[some 0], [Item.pan none]⟩ : ObjHeap).copyTile 0).1).applyMuts
        [.setSlot 1 none, .setItem 1 (Item.plate [] true)]).readTileSlot a =
        (⟨[some 0], [Item.pan none]⟩ : ObjHeap).readTileSlot a) ∧
    (∀ a, a < 1 →
      ((((⟨[some 0], [Item.pan none]⟩ : ObjHeap).copyTile 0).1).applyMuts
        [.setSlot 1 none, .setItem 1 (Item.plate [] true)]).readItem a =
        (⟨[some 0], [Item.pan none]⟩ : ObjHeap).readItem a) :=
  observation_deep_copy_isolated.1 ⟨[some 0], [Item.pan none]⟩ 0
    [.setSlot 1 none, .setItem 1 (Item.plate [] true)]
    (by
      intro m hm
      simp only [List.mem_cons, List.not_mem_nil, or_false] at hm
      rcases hm with rfl | rfl <;> (unfold MutFresh; simp))

end AwapKernel
